import Mathlib

/-!
Shallow embedding of the job-work-planner backend core
(`app/core/job_operations_service.py` together with the parts of
`app/core/notification_service.py`, `app/core/audit_service.py` and
`app/db/mock_db.py` it uses), and theorems settling the claims about it.

Modelling conventions, chosen to mirror the Python source:
* Statuses are plain strings, exactly as in the source (ad-hoc string
  constants, with `ALLOWED_STATUS_TRANSITIONS` keyed by them).
* The mock-database dict tables become lists kept in insertion order;
  `dict[key] = value` replaces in place when the key is present and appends
  otherwise, `dict.get` is a `find?`, `dict.pop` filters the key out, and
  `dict.values()` iteration is iteration over the list.
* ISO date strings are embedded as integers (`datetime.fromisoformat` and
  its comparison are order-isomorphic to the integers on the well-formed
  inputs the claims exercise; the parse-failure branch is not modelled).
  A stored planned date is never the empty string in the source, so its
  Python truthiness is `Option.isSome` here.
* `datetime.utcnow()` is an explicit `now : Int` parameter; the `uuid`
  notification / audit ids and the `before`/`after` audit snapshots are
  bookkeeping not touched by any claim and are elided.
* Python `raise ValueError(msg)` / `raise CapacityConflictError(msg, clashes)`
  become an `Except SvcError` result; where the source message interpolates
  runtime values we keep the interpolated pieces that distinguish the raise
  sites and elide purely numeric interpolations.
-/

namespace JobWorkPlanner

/-- Operation status constant from the source. -/
def OP_STATUS_NOT_STARTED : String := "NOT_STARTED"

/-- Operation status constant from the source. -/
def OP_STATUS_READY : String := "READY"

/-- Operation status constant from the source. -/
def OP_STATUS_IN_PROGRESS : String := "IN_PROGRESS"

/-- Operation status constant from the source. -/
def OP_STATUS_PAUSED : String := "PAUSED"

/-- Operation status constant from the source. -/
def OP_STATUS_COMPLETED : String := "COMPLETED"

/-- Operation status constant from the source. -/
def OP_STATUS_CANCELLED : String := "CANCELLED"

/-- Configurable capacity rule (MVP) from the source. -/
def MAX_OPS_PER_SHIFT : Nat := 3

/-- One row of `JOB_OPERATIONS_TABLE`. The creation path only sets the first
six fields; every other key is absent until some service writes it, which the
embedding renders as an `Option` (or defaulted) field. -/
structure JobOperation where
  job_operation_id : String
  job_id : String
  tenant_id : String
  operation_id : String
  sequence_number : Nat
  status : String
  machine_id : Option String := none
  shift_id : Option String := none
  planned_start_date : Option Int := none
  planned_end_date : Option Int := none
  actual_start_time : Option Int := none
  started_by : Option String := none
  paused_at : Option Int := none
  paused_by : Option String := none
  resumed_at : Option Int := none
  resumed_by : Option String := none
  actual_end_time : Option Int := none
  completed_by : Option String := none
  quantity_completed : Option Int := none
  quantity_rejected : Option Int := none
  needs_planning : Bool := false
  total_produced : Int := 0
  total_scrap : Int := 0
  total_rework : Int := 0
  updated_at : Option Int := none
deriving Repr, DecidableEq

/-- One row of `JOBS_TABLE`, restricted to the keys the core services read
or write (`job_id`, `tenant_id`, `quantity`, `status`, `updated_at`). -/
structure Job where
  job_id : String
  tenant_id : String
  quantity : Int
  status : String
  updated_at : Option Int := none
deriving Repr, DecidableEq

/-- One row of `PARTS_TABLE`. -/
structure Part where
  part_id : String
  tenant_id : String
  default_operations_route : List String
deriving Repr, DecidableEq

/-- One row of `MACHINES_TABLE`. -/
structure Machine where
  machine_id : String
  tenant_id : String
deriving Repr, DecidableEq

/-- One row of `SHIFTS_TABLE`. -/
structure Shift where
  shift_id : String
  tenant_id : String
deriving Repr, DecidableEq

/-- One production record appended to `JOB_OPERATION_PRODUCTION_TABLE`. -/
structure ProdEntry where
  timestamp : Int
  operator_id : String
  produced_qty : Int
  scrap_qty : Int
  rework_qty : Int
  notes : Option String := none
deriving Repr, DecidableEq

/-- One row of `NOTIFICATIONS_TABLE` (uuid key elided; rows in creation
order). -/
structure Notification where
  tenant_id : String
  user_id : Option String
  notif_type : String
  message : String
  entity_reference : String
  is_read : Bool := false
  created_at : Int
deriving Repr, DecidableEq

/-- One row of the append-only `AUDIT_LOGS_TABLE` (uuid and the before/after
snapshot dicts elided; no claim reads them). -/
structure AuditRecord where
  tenant_id : String
  entity_type : String
  entity_id : String
  action : String
  user_id : String
  timestamp : Int
deriving Repr, DecidableEq

/-- The mock-database tables the core services touch.  `OPERATIONS_TABLE` is
only ever consulted for key membership (`op_id not in OPERATIONS_TABLE`), so
it is embedded as its key list. -/
structure State where
  jobs : List Job
  job_operations : List JobOperation
  production : List (String × List ProdEntry)
  parts : List Part
  operations_catalog : List String
  machines : List Machine
  shifts : List Shift
  notifications : List Notification
  audit_log : List AuditRecord
deriving Repr, DecidableEq

/-- Errors raised by the services: plain `ValueError(msg)` or the custom
`CapacityConflictError(message, clashes)`; a clash is the dict built in the
capacity scan. -/
structure Clash where
  job_operation_id : String
  job_id : String
  status : String
deriving Repr, DecidableEq

inductive SvcError where
  | valueError (msg : String)
  | capacityConflict (msg : String) (clashes : List Clash)
deriving Repr, DecidableEq

/-- Python truthiness of an optional string: `None` and `""` are falsy. -/
def strOptTruthy : Option String → Bool
  | none => false
  | some s => !(s == "")

/-- Lookup `JOB_OPERATIONS_TABLE.get(id)`. -/
def lookupJobOp (table : List JobOperation) (id : String) : Option JobOperation :=
  table.find? (fun op => op.job_operation_id == id)

/-- Mutating the dict entry for `id` in place (value replaced, position
kept). -/
def updateOp (table : List JobOperation) (id : String)
    (f : JobOperation → JobOperation) : List JobOperation :=
  table.map (fun o => if o.job_operation_id == id then f o else o)

/-- Assignment `table[key] = value` on a dict: replace in place when present, append
otherwise. -/
def dictInsertOp (table : List JobOperation) (op : JobOperation) : List JobOperation :=
  if table.any (fun o => o.job_operation_id == op.job_operation_id) then
    table.map (fun o => if o.job_operation_id == op.job_operation_id then op else o)
  else
    table ++ [op]

/-- Lookup `JOBS_TABLE.get(job_id)`. -/
def lookupJob (table : List Job) (id : String) : Option Job :=
  table.find? (fun j => j.job_id == id)

/-- Mutating the job dict entry for `id` in place. -/
def updateJob (table : List Job) (id : String) (f : Job → Job) : List Job :=
  table.map (fun j => if j.job_id == id then f j else j)

/-- Lookup `JOB_OPERATION_PRODUCTION_TABLE.get(id, [])`. -/
def lookupProd (table : List (String × List ProdEntry)) (id : String) : List ProdEntry :=
  match table.find? (fun p => p.1 == id) with
  | some p => p.2
  | none => []

/-- Assignment `JOB_OPERATION_PRODUCTION_TABLE[id] = entries`. -/
def setProd (table : List (String × List ProdEntry)) (id : String)
    (entries : List ProdEntry) : List (String × List ProdEntry) :=
  if table.any (fun p => p.1 == id) then
    table.map (fun p => if p.1 == id then (id, entries) else p)
  else
    table ++ [(id, entries)]

/-- Embedding of `ALLOWED_STATUS_TRANSITIONS` from the source: a dict from status to the
set of permitted successor statuses; the service reads it with
`.get(current_status, set())`, so unknown statuses get the empty set, as do
the explicitly-empty COMPLETED and CANCELLED entries. -/
def ALLOWED_STATUS_TRANSITIONS (status : String) : List String :=
  if status == OP_STATUS_NOT_STARTED then [OP_STATUS_IN_PROGRESS, OP_STATUS_CANCELLED]
  else if status == OP_STATUS_READY then [OP_STATUS_IN_PROGRESS]
  else if status == OP_STATUS_IN_PROGRESS then [OP_STATUS_COMPLETED, OP_STATUS_PAUSED]
  else if status == OP_STATUS_PAUSED then [OP_STATUS_IN_PROGRESS]
  else []

/-- Embedding of `is_valid_status_transition` from the source. -/
def is_valid_status_transition (current_status new_status : String) : Bool :=
  (ALLOWED_STATUS_TRANSITIONS current_status).contains new_status

/-- Embedding of `create_notification` from `notification_service.py`: appends one
notification row (`is_read = False`, `created_at = now`) and returns the
updated state. -/
def create_notification (s : State) (tenant_id : String) (user_id : Option String)
    (notif_type message entity_ref : String) (now : Int) : State :=
  { s with notifications := s.notifications ++
      [{ tenant_id := tenant_id, user_id := user_id, notif_type := notif_type,
         message := message, entity_reference := entity_ref, is_read := false,
         created_at := now }] }

/-- Embedding of `log_audit_event` from `audit_service.py`: appends one audit row. -/
def log_audit_event (s : State) (tenant_id entity_type entity_id action user_id : String)
    (now : Int) : State :=
  { s with audit_log := s.audit_log ++
      [{ tenant_id := tenant_id, entity_type := entity_type, entity_id := entity_id,
         action := action, user_id := user_id, timestamp := now }] }

/-- Embedding of `validate_part_route` from the source: part must exist, belong to the
tenant, have a non-empty route, and every route entry must resolve in the
operation-type catalog (the loop raises at the first unresolved entry). -/
def validate_part_route (s : State) (part_id tenant_id : String) :
    Except SvcError (List String) :=
  match s.parts.find? (fun p => p.part_id == part_id) with
  | none => .error (.valueError "Part does not exist")
  | some part =>
    if part.tenant_id ≠ tenant_id then
      .error (.valueError "Part does not belong to tenant")
    else if part.default_operations_route = [] then
      .error (.valueError "Part has no operation route defined")
    else
      match part.default_operations_route.find?
          (fun op_id => !(s.operations_catalog.contains op_id)) with
      | some bad => .error (.valueError ("Invalid operation in route: " ++ bad))
      | none => .ok part.default_operations_route

/-- The job-operation record built for route index `index` (0-based) in
`create_job_operations`: id is `f"{job_id}-{op_id}"`, sequence number is
`index + 1`, the first operation is READY and every other NOT_STARTED. -/
def mkJobOperation (job_id tenant_id op_id : String) (index : Nat) : JobOperation :=
  { job_operation_id := job_id ++ "-" ++ op_id
    job_id := job_id
    tenant_id := tenant_id
    operation_id := op_id
    sequence_number := index + 1
    status := if index == 0 then OP_STATUS_READY else OP_STATUS_NOT_STARTED }

/-- The `for index, op_id in enumerate(route)` creation loop of
`create_job_operations`.  `failAt = some k` injects a failure immediately
before creating the operation at 0-based index `k`: the spec's testable
property injects a fault partway through creation, and nothing else in the
loop body can raise in the source, so the injection point is the only
addition over the source loop.  Returns the mutated table, the
`created_operation_ids` accumulated so far, and whether the injected failure
fired. -/
def createLoop (table : List JobOperation) (job_id tenant_id : String)
    (route : List String) (index : Nat) (failAt : Option Nat) :
    List JobOperation × List String × Bool :=
  match route with
  | [] => (table, [], false)
  | op_id :: rest =>
    if failAt = some index then (table, [], true)
    else
      let op := mkJobOperation job_id tenant_id op_id index
      let table' := dictInsertOp table op
      let r := createLoop table' job_id tenant_id rest (index + 1) failAt
      (r.1, op.job_operation_id :: r.2.1, r.2.2)

/-- Embedding of `JOB_OPERATIONS_TABLE.pop(op_id, None)` applied to each id of the list
(the rollback loop in `create_job_operations`). -/
def popOps (table : List JobOperation) (ids : List String) : List JobOperation :=
  match ids with
  | [] => table
  | id :: rest => popOps (table.filter (fun o => !(o.job_operation_id == id))) rest

/-- Embedding of `create_job_operations` from the source, with the fault-injection point
of `createLoop` threaded through (`failAt = none` is the unmodified code
path).  On any exception the rollback pops every id created by this call and
re-raises. -/
def create_job_operations (s : State) (job_id part_id tenant_id : String)
    (failAt : Option Nat) : State × Except SvcError (List String) :=
  match validate_part_route s part_id tenant_id with
  | .error e => (s, .error e)
  | .ok route =>
    let r := createLoop s.job_operations job_id tenant_id route 0 failAt
    if r.2.2 then
      ({ s with job_operations := popOps r.1 r.2.1 },
       .error (.valueError "injected failure"))
    else
      ({ s with job_operations := r.1 }, .ok r.2.1)

/-- Step 5 of `update_job_operation_status` (quantity and completion
validations), run only when the target status is COMPLETED.  Returns the
effective rejected quantity (`quantity_rejected or 0`). -/
def completion_validation (s : State) (job_op : JobOperation)
    (quantity_completed quantity_rejected : Option Int)
    (rework_flag : Bool) (rework_note : Option String) : Except SvcError Int :=
  match quantity_completed with
  | none => .error (.valueError "quantity_completed is required when completing an operation")
  | some qc =>
    if qc < 0 then .error (.valueError "quantity_completed cannot be negative")
    else
      let qr := quantity_rejected.getD 0
      if qr < 0 then .error (.valueError "quantity_rejected cannot be negative")
      else
        match lookupJob s.jobs job_op.job_id with
        | none => .error (.valueError "Parent job not found")
        | some parent_job =>
          if qc > parent_job.quantity then
            .error (.valueError "quantity_completed exceeds total job quantity")
          else if qc + qr > parent_job.quantity then
            .error (.valueError "Total produced + rejected exceeds job quantity")
          else if rework_flag ∧ ¬ strOptTruthy rework_note then
            .error (.valueError "rework_note is required when rework_flag is true")
          else .ok qr

/-- The two sequential timestamp conditionals of the source: a standalone
start-fresh `if` (lines 288-290) followed by the `if`/`elif` chain (lines
291-307) whose first arm repeats the start-fresh case, so starting fresh
writes its fields twice with the same values. -/
def applyTimestamps (job_op : JobOperation) (current_status new_status user_id : String)
    (quantity_completed : Option Int) (qr : Int) (now : Int) : JobOperation :=
  let op1 :=
    if new_status = OP_STATUS_IN_PROGRESS ∧ current_status ≠ OP_STATUS_PAUSED then
      { job_op with actual_start_time := some now, started_by := some user_id }
    else job_op
  if new_status = OP_STATUS_IN_PROGRESS ∧ current_status ≠ OP_STATUS_PAUSED then
    { op1 with actual_start_time := some now, started_by := some user_id }
  else if new_status = OP_STATUS_PAUSED then
    { op1 with paused_at := some now, paused_by := some user_id }
  else if new_status = OP_STATUS_IN_PROGRESS ∧ current_status = OP_STATUS_PAUSED then
    { op1 with resumed_at := some now, resumed_by := some user_id }
  else if new_status = OP_STATUS_COMPLETED then
    { op1 with actual_end_time := some now, completed_by := some user_id,
               quantity_completed := quantity_completed, quantity_rejected := some qr }
  else op1

/-- Step 8 of `update_job_operation_status` (SCRUM 33 auto-advance): on
completion, the first table entry with the same job and sequence number + 1
is promoted to READY (with a broadcast READY notification) when machine,
shift and both planned dates are set, and otherwise is reset to NOT_STARTED
with `needs_planning = True`. -/
def autoAdvance (s : State) (job_op : JobOperation) (now : Int) : State :=
  match s.job_operations.find? (fun op =>
      op.job_id == job_op.job_id
      && op.sequence_number == job_op.sequence_number + 1) with
  | none => s
  | some next_op =>
    if strOptTruthy next_op.machine_id ∧ strOptTruthy next_op.shift_id
        ∧ next_op.planned_start_date.isSome ∧ next_op.planned_end_date.isSome then
      let s' := { s with job_operations := (updateOp s.job_operations
                    next_op.job_operation_id (fun o => { o with status := OP_STATUS_READY })) }
      create_notification s' job_op.tenant_id none "READY"
        ("Operation " ++ next_op.operation_id ++ " for Job " ++ job_op.job_id
          ++ " is READY to start.")
        next_op.job_operation_id now
    else
      { s with job_operations := (updateOp s.job_operations next_op.job_operation_id
          (fun o => { o with status := OP_STATUS_NOT_STARTED, needs_planning := true })) }

/-- Step 9 of `update_job_operation_status` (parent job status rollup): if
the parent job exists, set it COMPLETED when all of its operations are
COMPLETED, else IN_PROGRESS when any is IN_PROGRESS, else leave the status
field untouched; `updated_at` is refreshed in all three cases. -/
def rollupJobStatus (s : State) (job_id : String) (now : Int) : State :=
  match lookupJob s.jobs job_id with
  | none => s
  | some job =>
    let all_ops := s.job_operations.filter (fun op => op.job_id == job.job_id)
    let new_status :=
      if all_ops.all (fun op => op.status == OP_STATUS_COMPLETED) then "COMPLETED"
      else if all_ops.any (fun op => op.status == OP_STATUS_IN_PROGRESS) then "IN_PROGRESS"
      else job.status
    { s with jobs := (updateJob s.jobs job.job_id
        (fun j => { j with status := new_status, updated_at := some now })) }

/-- Step 4 of `update_job_operation_status` (sequence enforcement), the
blocking condition: the list of operations with the same job and sequence
number − 1 is empty, or its first element is not COMPLETED. -/
def prevOpNotCompleted (s : State) (job_op : JobOperation) : Bool :=
  match s.job_operations.filter (fun op =>
      op.job_id == job_op.job_id
      && op.sequence_number == job_op.sequence_number - 1) with
  | [] => true
  | p :: _ => !(p.status == OP_STATUS_COMPLETED)

/-- Embedding of `update_job_operation_status` from the source, steps 1-9 in order. -/
def update_job_operation_status (s : State) (job_operation_id new_status : String)
    (tenant_id user_id : String)
    (quantity_completed quantity_rejected : Option Int)
    (rework_flag : Bool) (rework_note : Option String)
    (override_sequence : Bool) (now : Int) :
    State × Except SvcError JobOperation :=
  match lookupJobOp s.job_operations job_operation_id with
  | none => (s, .error (.valueError "Job operation not found"))
  | some job_op =>
    if job_op.tenant_id ≠ tenant_id then
      (s, .error (.valueError "Unauthorized access to job operation"))
    else
      let current_status := job_op.status
      if ¬ is_valid_status_transition current_status new_status then
        (s, .error (.valueError
          ("Invalid status transition: " ++ current_status ++ " → " ++ new_status)))
      else if new_status = OP_STATUS_IN_PROGRESS ∧ current_status ≠ OP_STATUS_PAUSED
          ∧ ¬ strOptTruthy job_op.machine_id then
        (s, .error (.valueError "Cannot start operation: Machine not assigned (Planning required)"))
      else if new_status = OP_STATUS_IN_PROGRESS ∧ ¬ override_sequence
          ∧ job_op.sequence_number > 1 ∧ prevOpNotCompleted s job_op then
        (s, .error (.valueError "Previous operation must be COMPLETED first"))
      else
        match (if new_status = OP_STATUS_COMPLETED then
                completion_validation s job_op quantity_completed quantity_rejected
                  rework_flag rework_note
              else .ok (quantity_rejected.getD 0)) with
        | .error e => (s, .error e)
        | .ok qr =>
          let op2 := applyTimestamps job_op current_status new_status user_id
                        quantity_completed qr now
          let op3 := { op2 with status := new_status }
          let s1 := { s with job_operations :=
                        updateOp s.job_operations job_operation_id (fun _ => op3) }
          let s2 := if new_status = OP_STATUS_COMPLETED then autoAdvance s1 op3 now else s1
          let s3 := rollupJobStatus s2 job_op.job_id now
          let s4 := log_audit_event s3 job_op.tenant_id "JOB_OPERATION" job_operation_id
                      "STATUS_CHANGED" user_id now
          (s4, .ok op3)

/-- The capacity/conflict scan of `plan_job_operation_service`: every other
operation (self excluded) on the same machine and shift whose planned window
is fully set and intersects the requested window
(`start_date <= other_end and end_date >= other_start`) is a clash. -/
def clashesFor (s : State) (job_operation_id machine_id shift_id : String)
    (start_date end_date : Int) : List Clash :=
  (s.job_operations.filter (fun other_op =>
      !(other_op.job_operation_id == job_operation_id)
      && other_op.machine_id == some machine_id
      && other_op.shift_id == some shift_id
      && (match other_op.planned_start_date, other_op.planned_end_date with
          | some other_start, some other_end =>
              decide (start_date ≤ other_end) && decide (end_date ≥ other_start)
          | _, _ => false))).map
    (fun op => { job_operation_id := op.job_operation_id, job_id := op.job_id,
                 status := op.status })

/-- Embedding of `plan_job_operation_service` from the source (unified
planning and rescheduling), guards in source order.  The dead second
COMPLETED guard of the source (line 435, unreachable after the
COMPLETED/CANCELLED guard) is kept. -/
def plan_job_operation_service (s : State) (job_operation_id machine_id shift_id : String)
    (planned_start_date planned_end_date : Int)
    (force : Bool) (reschedule_reason : Option String) (ignore_conflicts : Bool)
    (tenant_id : String) (now : Int) : State × Except SvcError JobOperation :=
  match lookupJobOp s.job_operations job_operation_id with
  | none => (s, .error (.valueError "Job operation not found"))
  | some job_op =>
    if job_op.tenant_id ≠ tenant_id then
      (s, .error (.valueError "Unauthorized access to job operation"))
    else
      let current_status := job_op.status
      if current_status = "COMPLETED" ∨ current_status = "CANCELLED" then
        (s, .error (.valueError
          ("Cannot reschedule or plan an operation that is " ++ current_status)))
      else if current_status = "COMPLETED" then
        (s, .error (.valueError "Cannot reschedule a COMPLETED operation"))
      else if (current_status = "IN_PROGRESS" ∨ current_status = "PAUSED") ∧ ¬ force then
        (s, .error (.valueError "Operation is active. Set force=true and provide reason."))
      else if (current_status = "IN_PROGRESS" ∨ current_status = "PAUSED")
          ∧ ¬ strOptTruthy reschedule_reason then
        (s, .error (.valueError "Reschedule reason is required for active operations."))
      else
        -- line 445: the service rebinds tenant_id to the operation's tenant
        let op_tenant := job_op.tenant_id
        match s.machines.find? (fun m => m.machine_id == machine_id) with
        | none => (s, .error (.valueError "Machine not found"))
        | some machine =>
          if machine.tenant_id ≠ op_tenant then
            (s, .error (.valueError "Machine not found"))
          else
            match s.shifts.find? (fun sh => sh.shift_id == shift_id) with
            | none => (s, .error (.valueError "Shift not found"))
            | some shift =>
              if shift.tenant_id ≠ op_tenant then
                (s, .error (.valueError "Shift not found"))
              else if planned_start_date > planned_end_date then
                (s, .error (.valueError "planned_start_date cannot be after planned_end_date"))
              else
                let clashing_ops := clashesFor s job_operation_id machine_id shift_id
                                      planned_start_date planned_end_date
                if clashing_ops.length ≥ MAX_OPS_PER_SHIFT ∧ ¬ ignore_conflicts then
                  -- the CONFLICT notification fires in the rejection branch,
                  -- immediately before the CapacityConflictError is raised
                  (create_notification s op_tenant none "CONFLICT"
                      ("Capacity overload detected on " ++ machine_id
                        ++ " during planning. Limit: 3")
                      job_operation_id now,
                   .error (.capacityConflict
                      "Machine capacity overloaded. Max 3 operations per shift."
                      clashing_ops))
                else if clashing_ops.length ≥ MAX_OPS_PER_SHIFT
                    ∧ ¬ strOptTruthy reschedule_reason then
                  (s, .error (.valueError "A reason is required when ignoring capacity conflicts."))
                else
                  let job_op' := { job_op with
                    machine_id := some machine_id
                    shift_id := some shift_id
                    planned_start_date := some planned_start_date
                    planned_end_date := some planned_end_date
                    updated_at := some now }
                  let s1 := { s with job_operations :=
                                (updateOp s.job_operations job_operation_id (fun _ => job_op')) }
                  let event_type :=
                    if current_status = "NOT_STARTED" then "OP_PLANNED" else "OP_RESCHEDULED"
                  let s2 := log_audit_event s1 job_op.tenant_id "JOB_OPERATION"
                              job_operation_id event_type "supervisor-user-id" now
                  (s2, .ok job_op')

/-- Result dict of `add_production_entry_service`. -/
structure ProdResult where
  job_operation_id : String
  total_produced : Int
  total_scrap : Int
  total_rework : Int
  entries_count : Nat
deriving Repr, DecidableEq

/-- Sum of the `produced_qty` fields of a list of production entries. -/
def sumProduced (entries : List ProdEntry) : Int :=
  (entries.map (fun e => e.produced_qty)).sum

/-- Sum of the `scrap_qty` fields of a list of production entries. -/
def sumScrap (entries : List ProdEntry) : Int :=
  (entries.map (fun e => e.scrap_qty)).sum

/-- Sum of the `rework_qty` fields of a list of production entries. -/
def sumRework (entries : List ProdEntry) : Int :=
  (entries.map (fun e => e.rework_qty)).sum

/-- Embedding of `add_production_entry_service` from the source (SCRUM 32),
guards in source order. -/
def add_production_entry_service (s : State) (job_operation_id : String)
    (produced_qty scrap_qty rework_qty : Int) (operator_id tenant_id : String)
    (notes : Option String) (now : Int) : State × Except SvcError ProdResult :=
  match lookupJobOp s.job_operations job_operation_id with
  | none => (s, .error (.valueError "Job operation not found"))
  | some job_op =>
    if job_op.tenant_id ≠ tenant_id then
      (s, .error (.valueError "Unauthorized access to job operation"))
    else if job_op.status = OP_STATUS_COMPLETED then
      (s, .error (.valueError "Cannot record production. Operation already COMPLETED"))
    else if produced_qty < 0 ∨ scrap_qty < 0 ∨ rework_qty < 0 then
      (s, .error (.valueError "Quantities cannot be negative"))
    else
      let total_entry := produced_qty + scrap_qty + rework_qty
      if total_entry = 0 then
        (s, .error (.valueError "At least one quantity must be greater than zero"))
      else
        let existing_entries := lookupProd s.production job_operation_id
        let total_produced := sumProduced existing_entries
        let total_scrap := sumScrap existing_entries
        let total_rework := sumRework existing_entries
        match lookupJob s.jobs job_op.job_id with
        | none => (s, .error (.valueError "Parent job not found"))
        | some job =>
          let planned_qty := job.quantity
          if total_produced + total_scrap + total_rework + total_entry > planned_qty then
            (s, .error (.valueError "Production exceeds job quantity"))
          else
            let production_record : ProdEntry :=
              { timestamp := now, operator_id := operator_id,
                produced_qty := produced_qty, scrap_qty := scrap_qty,
                rework_qty := rework_qty, notes := notes }
            let new_entries := existing_entries ++ [production_record]
            let s1 := { s with production := setProd s.production job_operation_id new_entries }
            let s2 := { s1 with job_operations :=
                          (updateOp s1.job_operations job_operation_id (fun o =>
                            { o with total_produced := total_produced + produced_qty,
                                     total_scrap := total_scrap + scrap_qty,
                                     total_rework := total_rework + rework_qty,
                                     updated_at := some now })) }
            (s2, .ok { job_operation_id := job_operation_id,
                       total_produced := total_produced + produced_qty,
                       total_scrap := total_scrap + scrap_qty,
                       total_rework := total_rework + rework_qty,
                       entries_count := new_entries.length })

/-- Sum of produced + scrap + rework across the production entries of one
operation, read from the production table. -/
def opProductionSum (s : State) (job_operation_id : String) : Int :=
  sumProduced (lookupProd s.production job_operation_id)
    + sumScrap (lookupProd s.production job_operation_id)
    + sumRework (lookupProd s.production job_operation_id)

/-- Sum of produced + scrap + rework across all production entries of all of
a job's operations (the quantity the claimed job-wide invariant speaks
about). -/
def jobProductionSum (s : State) (job_id : String) : Int :=
  ((s.job_operations.filter (fun op => op.job_id == job_id)).map
      (fun op => opProductionSum s op.job_operation_id)).sum

/-- All ids created by one `create_job_operations` call: none when validation
already failed (nothing was created), otherwise the ids accumulated by the
creation loop up to the point where it stopped. -/
def createdIdsOfCall (s : State) (job_id part_id tenant_id : String)
    (failAt : Option Nat) : List String :=
  match validate_part_route s part_id tenant_id with
  | .error _ => []
  | .ok route => (createLoop s.job_operations job_id tenant_id route 0 failAt).2.1

/-!  Concrete fixtures used by the counterexample and witness theorems. -/

/-- Fixture: job `J` with planned quantity 10 and two IN_PROGRESS operations;
operation `J-a` has already recorded 10 produced units. -/
def prodFixture : State :=
  { jobs := [{ job_id := "J", tenant_id := "t1", quantity := 10, status := "IN_PROGRESS" }]
    job_operations :=
      [{ job_operation_id := "J-a", job_id := "J", tenant_id := "t1", operation_id := "a",
         sequence_number := 1, status := "IN_PROGRESS" },
       { job_operation_id := "J-b", job_id := "J", tenant_id := "t1", operation_id := "b",
         sequence_number := 2, status := "IN_PROGRESS" }]
    production := [("J-a", [{ timestamp := 0, operator_id := "u", produced_qty := 10,
                              scrap_qty := 0, rework_qty := 0 }])]
    parts := [], operations_catalog := [], machines := [], shifts := []
    notifications := [], audit_log := [] }

/-- Fixture: job `J` is IN_PROGRESS and its only operation is IN_PROGRESS
with a machine assigned. -/
def pauseFixture : State :=
  { jobs := [{ job_id := "J", tenant_id := "t1", quantity := 10, status := "IN_PROGRESS" }]
    job_operations :=
      [{ job_operation_id := "J-a", job_id := "J", tenant_id := "t1", operation_id := "a",
         sequence_number := 1, status := "IN_PROGRESS", machine_id := some "m1" }]
    production := [], parts := [], operations_catalog := [], machines := [], shifts := []
    notifications := [], audit_log := [] }

/-- Fixture: machine `m1` and shift `sh1` already hold three operations
planned on the window [1, 10]; operation `o4` (status READY, same tenant) is
still unplanned. -/
def capacityFixture : State :=
  { jobs := []
    job_operations :=
      [{ job_operation_id := "o1", job_id := "J1", tenant_id := "t1", operation_id := "a",
         sequence_number := 1, status := "NOT_STARTED", machine_id := some "m1",
         shift_id := some "sh1", planned_start_date := some 1, planned_end_date := some 10 },
       { job_operation_id := "o2", job_id := "J2", tenant_id := "t1", operation_id := "a",
         sequence_number := 1, status := "NOT_STARTED", machine_id := some "m1",
         shift_id := some "sh1", planned_start_date := some 1, planned_end_date := some 10 },
       { job_operation_id := "o3", job_id := "J3", tenant_id := "t1", operation_id := "a",
         sequence_number := 1, status := "NOT_STARTED", machine_id := some "m1",
         shift_id := some "sh1", planned_start_date := some 1, planned_end_date := some 10 },
       { job_operation_id := "o4", job_id := "J4", tenant_id := "t1", operation_id := "a",
         sequence_number := 1, status := "READY" }]
    production := [], parts := [], operations_catalog := []
    machines := [{ machine_id := "m1", tenant_id := "t1" }]
    shifts := [{ shift_id := "sh1", tenant_id := "t1" }]
    notifications := [], audit_log := [] }

/-- Fixture: part `p1` repeats the same operation type in its route; part
`p2` has a two-entry route of distinct operation types. -/
def routeFixture : State :=
  { jobs := [], job_operations := [], production := []
    parts := [{ part_id := "p1", tenant_id := "t1",
                default_operations_route := ["op-x", "op-x"] },
              { part_id := "p2", tenant_id := "t1",
                default_operations_route := ["op-x", "op-y"] }]
    operations_catalog := ["op-x", "op-y"], machines := [], shifts := []
    notifications := [], audit_log := [] }

/-- Fixture: job `J` (quantity 10) with operation `J-a` (sequence 1,
IN_PROGRESS, machine assigned) and operation `J-b` (sequence 2, READY, fully
planned). -/
def seqFixture : State :=
  { jobs := [{ job_id := "J", tenant_id := "t1", quantity := 10, status := "IN_PROGRESS" }]
    job_operations :=
      [{ job_operation_id := "J-a", job_id := "J", tenant_id := "t1", operation_id := "a",
         sequence_number := 1, status := "IN_PROGRESS", machine_id := some "m1",
         shift_id := some "sh1", planned_start_date := some 1, planned_end_date := some 2 },
       { job_operation_id := "J-b", job_id := "J", tenant_id := "t1", operation_id := "b",
         sequence_number := 2, status := "READY", machine_id := some "m1",
         shift_id := some "sh1", planned_start_date := some 3, planned_end_date := some 4 }]
    production := [], parts := [], operations_catalog := []
    machines := [{ machine_id := "m1", tenant_id := "t1" }]
    shifts := [{ shift_id := "sh1", tenant_id := "t1" }]
    notifications := [], audit_log := [] }

deriving instance DecidableEq for Except

/-!  Generic lemmas about the dict embedding. -/

/-- A `find?` over a map that preserves the predicate finds the transformed
first match. -/
theorem find?_map_eq {α : Type} (l : List α) (g : α → α) (p : α → Bool)
    (h : ∀ x, p (g x) = p x) :
    List.find? p (l.map g) = (List.find? p l).map g := by
  have hpg : (p ∘ g) = p := funext h
  rw [List.find?_map, hpg]

/-- Looking a key up after an in-place dict update: the found row, if any, is
transformed exactly when it carries the updated key. -/
theorem lookupJobOp_updateOp (tbl : List JobOperation) (j : String)
    (f : JobOperation → JobOperation)
    (hf : ∀ o, (f o).job_operation_id = o.job_operation_id) (i : String) :
    lookupJobOp (updateOp tbl j f) i =
      (lookupJobOp tbl i).map (fun o => if o.job_operation_id == j then f o else o) := by
  unfold lookupJobOp updateOp
  apply find?_map_eq
  intro x
  by_cases hx : x.job_operation_id == j
  · simp [hx, hf]
  · simp [hx]

/-- Looking a job up after an in-place dict update. -/
theorem lookupJob_updateJob (tbl : List Job) (j : String) (f : Job → Job)
    (hf : ∀ x, (f x).job_id = x.job_id) (i : String) :
    lookupJob (updateJob tbl j f) i =
      (lookupJob tbl i).map (fun x => if x.job_id == j then f x else x) := by
  unfold lookupJob updateJob
  apply find?_map_eq
  intro x
  by_cases hx : x.job_id == j
  · simp [hx, hf]
  · simp [hx]

/-- A key absent from a table stays absent after popping more keys. -/
theorem lookupJobOp_popOps_of_none (ids : List String) (tbl : List JobOperation)
    (i : String) (h : lookupJobOp tbl i = none) :
    lookupJobOp (popOps tbl ids) i = none := by
  induction ids generalizing tbl with
  | nil => exact h
  | cons a rest ih =>
    apply ih
    unfold lookupJobOp at h ⊢
    rw [List.find?_eq_none] at h ⊢
    intro x hx
    exact h x (List.mem_of_mem_filter hx)

/-- Popping a key removes it from the table. -/
theorem lookupJobOp_popOps_mem (ids : List String) (tbl : List JobOperation)
    (i : String) (h : i ∈ ids) :
    lookupJobOp (popOps tbl ids) i = none := by
  induction ids generalizing tbl with
  | nil => cases h
  | cons a rest ih =>
    rcases List.mem_cons.mp h with rfl | hmem
    · show lookupJobOp (popOps (tbl.filter _) rest) i = none
      apply lookupJobOp_popOps_of_none
      unfold lookupJobOp
      rw [List.find?_eq_none]
      intro x hx
      have := (List.mem_filter.mp hx).2
      simpa using this
    · exact ih _ hmem

/-- Timestamp handling never changes the identity, sequencing or status
fields of the operation. -/
theorem applyTimestamps_fields (job_op : JobOperation)
    (cs ns uid : String) (qc : Option Int) (qr : Int) (now : Int) :
    (applyTimestamps job_op cs ns uid qc qr now).job_operation_id = job_op.job_operation_id
    ∧ (applyTimestamps job_op cs ns uid qc qr now).job_id = job_op.job_id
    ∧ (applyTimestamps job_op cs ns uid qc qr now).tenant_id = job_op.tenant_id
    ∧ (applyTimestamps job_op cs ns uid qc qr now).sequence_number = job_op.sequence_number
    ∧ (applyTimestamps job_op cs ns uid qc qr now).status = job_op.status := by
  unfold applyTimestamps
  split_ifs <;> simp

/-- Auto-advance and notifications never touch the jobs table. -/
theorem autoAdvance_jobs (s : State) (op : JobOperation) (now : Int) :
    (autoAdvance s op now).jobs = s.jobs := by
  unfold autoAdvance
  cases h : s.job_operations.find? (fun o =>
      o.job_id == op.job_id && o.sequence_number == op.sequence_number + 1) with
  | none => rfl
  | some next_op =>
    simp only
    split_ifs <;> simp [create_notification]

/-- Rollup of the parent job status: the operations and notifications tables
are untouched, and the looked-up job afterwards carries exactly the rolled-up
status (COMPLETED when all of the job's operations are COMPLETED, else
IN_PROGRESS when any is IN_PROGRESS, else the previous status). -/
theorem rollupJobStatus_spec (s : State) (jid : String) (now : Int) (j : Job)
    (hj : lookupJob s.jobs jid = some j) :
    (rollupJobStatus s jid now).job_operations = s.job_operations
    ∧ (rollupJobStatus s jid now).notifications = s.notifications
    ∧ ∃ j', lookupJob (rollupJobStatus s jid now).jobs jid = some j'
        ∧ j'.job_id = j.job_id ∧ j'.tenant_id = j.tenant_id ∧ j'.quantity = j.quantity
        ∧ j'.status = (
            if (s.job_operations.filter (fun op => op.job_id == j.job_id)).all
                (fun op => op.status == OP_STATUS_COMPLETED) then "COMPLETED"
            else if (s.job_operations.filter (fun op => op.job_id == j.job_id)).any
                (fun op => op.status == OP_STATUS_IN_PROGRESS) then "IN_PROGRESS"
            else j.status) := by
  have hjid : j.job_id = jid := by
    have := List.find?_some hj
    simpa using this
  unfold rollupJobStatus
  rw [hj]
  refine ⟨rfl, rfl, ?_⟩
  rw [lookupJob_updateJob _ _ _ (by intro x; rfl) _, hj]
  refine ⟨_, rfl, ?_⟩
  simp [hjid]

/-!  Claim C1: the production-quantity invariant. -/

/-- C1, counterexample: the claimed job-wide bound is not enforced.  In
`prodFixture` operation `J-a` of job `J` (planned quantity 10) has already
recorded 10 units; recording 10 more units on sibling operation `J-b` is
ACCEPTED, and afterwards the sum of produced+scrap+rework across all
production entries of all of `J`'s operations is 20 > 10 — the entry that
pushed the job-wide sum above `job.quantity` was not rejected. -/
theorem C1_counterexample :
    (add_production_entry_service prodFixture "J-b" 10 0 0 "u" "t1" none 5).2
      = .ok ⟨"J-b", 10, 0, 0, 1⟩
    ∧ lookupJob prodFixture.jobs "J"
        = some { job_id := "J", tenant_id := "t1", quantity := 10, status := "IN_PROGRESS" }
    ∧ jobProductionSum
        (add_production_entry_service prodFixture "J-b" 10 0 0 "u" "t1" none 5).1 "J" = 20
    ∧ ((10 : Int) < 20) := by decide

/-- C1, amended: `add_production_entry_service` enforces the planned-quantity
bound per OPERATION, not per job: an entry that would push the sum of
produced+scrap+rework across that single operation's own entries above the
job's planned quantity is rejected with the `Production exceeds job quantity`
error, and on that rejection the state is returned unchanged — no entry is
appended and the operation's running totals are untouched. -/
theorem C1_amended (s : State) (id oper tenant : String) (p sc r : Int)
    (notes : Option String) (now : Int) {op : JobOperation} {job : Job}
    (hl : lookupJobOp s.job_operations id = some op)
    (ht : op.tenant_id = tenant)
    (hst : op.status ≠ OP_STATUS_COMPLETED)
    (hj : lookupJob s.jobs op.job_id = some job)
    (hp : 0 ≤ p) (hs : 0 ≤ sc) (hr : 0 ≤ r) (hpos : 0 < p + sc + r)
    (hover : job.quantity < opProductionSum s id + (p + sc + r)) :
    add_production_entry_service s id p sc r oper tenant notes now
      = (s, .error (.valueError "Production exceeds job quantity")) := by
  unfold add_production_entry_service
  rw [hl]
  dsimp only
  rw [if_neg (by simp [ht])]
  rw [if_neg hst]
  rw [if_neg (by push_neg; exact ⟨hp, hs, hr⟩)]
  rw [if_neg (by omega)]
  rw [hj]
  dsimp only
  rw [if_pos (by unfold opProductionSum at hover; omega)]

/-- C1, witness for the amended theorem: on `prodFixture`, recording one more
unit on operation `J-a` (which already holds 10 of the job's 10) is rejected
and the state is unchanged. -/
theorem C1_witness :
    add_production_entry_service prodFixture "J-a" 1 0 0 "u" "t1" none 5
      = (prodFixture, .error (.valueError "Production exceeds job quantity")) :=
  C1_amended prodFixture "J-a" "u" "t1" 1 0 0 none 5 rfl rfl (by decide) rfl
    (by decide) (by decide) (by decide) (by decide) (by decide)

/-!  Claim C2: the job-status rollup. -/

/-- Rollup never changes the operations table, whether or not the parent job
exists. -/
theorem rollupJobStatus_job_operations (s : State) (jid : String) (now : Int) :
    (rollupJobStatus s jid now).job_operations = s.job_operations := by
  unfold rollupJobStatus
  cases lookupJob s.jobs jid <;> rfl

/-- A successful `update_job_operation_status` call always ends by auditing
the state obtained from rolling up the parent job of the updated operation,
and nothing on the way from the pre-state changed the jobs table. -/
theorem update_ok_shape (s : State) (id ns tenant user : String)
    (qc qrj : Option Int) (rf : Bool) (rn : Option String) (ov : Bool) (now : Int)
    (s' : State) (op' : JobOperation)
    (h : update_job_operation_status s id ns tenant user qc qrj rf rn ov now = (s', .ok op')) :
    ∃ op s2, lookupJobOp s.job_operations id = some op
      ∧ op'.job_id = op.job_id
      ∧ s2.jobs = s.jobs
      ∧ s' = log_audit_event (rollupJobStatus s2 op.job_id now) op.tenant_id
          "JOB_OPERATION" id "STATUS_CHANGED" user now := by
  unfold update_job_operation_status at h
  cases hl : lookupJobOp s.job_operations id with
  | none => rw [hl] at h; simp at h
  | some op =>
    rw [hl] at h
    dsimp only at h
    split_ifs at h with h1 h2 h3 h4 h5
    all_goals first | (solve | simp at h) | skip
    · cases hcv : completion_validation s op qc qrj rf rn with
      | error e => rw [hcv] at h; simp at h
      | ok qr =>
        rw [hcv] at h
        simp only [Prod.mk.injEq, Except.ok.injEq] at h
        obtain ⟨hs', hop'⟩ := h
        refine ⟨op, _, rfl, ?_, ?_, hs'.symm⟩
        · rw [← hop']
          exact (applyTimestamps_fields op op.status ns user qc qr now).2.1
        · rw [autoAdvance_jobs]
    · dsimp only at h
      simp only [Prod.mk.injEq, Except.ok.injEq] at h
      obtain ⟨hs', hop'⟩ := h
      refine ⟨op, _, rfl, ?_, ?_, hs'.symm⟩
      · rw [← hop']
        exact (applyTimestamps_fields op op.status ns user qc (qrj.getD 0) now).2.1
      · rfl

/-- C2, counterexample: pausing the only IN_PROGRESS operation does NOT
return the job to NOT_STARTED.  On `pauseFixture` the pause succeeds, and
afterwards the job has no IN_PROGRESS operation and not all operations are
COMPLETED, yet its status is still `IN_PROGRESS` where the claim demands
`NOT_STARTED`: the rollup has no fall-through branch resetting the status. -/
theorem C2_counterexample :
    ((update_job_operation_status pauseFixture "J-a" "PAUSED" "t1" "u"
        none none false none false 7).2).isOk = true
    ∧ (((update_job_operation_status pauseFixture "J-a" "PAUSED" "t1" "u"
          none none false none false 7).1).job_operations.filter
        (fun op => op.job_id == "J")).any (fun op => op.status == "IN_PROGRESS") = false
    ∧ (((update_job_operation_status pauseFixture "J-a" "PAUSED" "t1" "u"
          none none false none false 7).1).job_operations.filter
        (fun op => op.job_id == "J")).all (fun op => op.status == "COMPLETED") = false
    ∧ lookupJob ((update_job_operation_status pauseFixture "J-a" "PAUSED" "t1" "u"
          none none false none false 7).1).jobs "J"
        = some { job_id := "J", tenant_id := "t1", quantity := 10,
                 status := "IN_PROGRESS", updated_at := some 7 }
    ∧ "IN_PROGRESS" ≠ "NOT_STARTED" := by decide

/-- C2, amended: after any successful `update_job_operation_status` call on
an operation of a job that exists, the job's status is COMPLETED when all of
the job's operations are COMPLETED, IN_PROGRESS when some operation is
IN_PROGRESS and not all are COMPLETED, and in every other case it is LEFT AT
ITS PREVIOUS VALUE (not reset to NOT_STARTED as claimed). -/
theorem C2_amended (s : State) (id ns tenant user : String)
    (qc qrj : Option Int) (rf : Bool) (rn : Option String) (ov : Bool) (now : Int)
    (s' : State) (op' : JobOperation)
    (h : update_job_operation_status s id ns tenant user qc qrj rf rn ov now = (s', .ok op'))
    {jobPre : Job} (hj : lookupJob s.jobs op'.job_id = some jobPre) :
    ∃ jobPost, lookupJob s'.jobs op'.job_id = some jobPost
      ∧ ((s'.job_operations.filter (fun op => op.job_id == op'.job_id)).all
            (fun op => op.status == OP_STATUS_COMPLETED) = true →
          jobPost.status = "COMPLETED")
      ∧ ((s'.job_operations.filter (fun op => op.job_id == op'.job_id)).all
            (fun op => op.status == OP_STATUS_COMPLETED) = false →
         (s'.job_operations.filter (fun op => op.job_id == op'.job_id)).any
            (fun op => op.status == OP_STATUS_IN_PROGRESS) = true →
          jobPost.status = "IN_PROGRESS")
      ∧ ((s'.job_operations.filter (fun op => op.job_id == op'.job_id)).all
            (fun op => op.status == OP_STATUS_COMPLETED) = false →
         (s'.job_operations.filter (fun op => op.job_id == op'.job_id)).any
            (fun op => op.status == OP_STATUS_IN_PROGRESS) = false →
          jobPost.status = jobPre.status) := by
  obtain ⟨op, s2, hl, hjid, hs2jobs, hs'⟩ :=
    update_ok_shape s id ns tenant user qc qrj rf rn ov now s' op' h
  have hpre : jobPre.job_id = op'.job_id := by simpa using List.find?_some hj
  have hj2 : lookupJob s2.jobs op.job_id = some jobPre := by
    rw [hs2jobs, ← hjid]; exact hj
  obtain ⟨hops, hnotifs, j', hlook, hjid', htid, hqty, hstat⟩ :=
    rollupJobStatus_spec s2 op.job_id now jobPre hj2
  have hs'jobs : s'.jobs = (rollupJobStatus s2 op.job_id now).jobs := by rw [hs']; rfl
  have hs'ops : s'.job_operations = s2.job_operations := by
    rw [hs']
    exact hops
  rw [hpre] at hstat
  refine ⟨j', ?_, ?_, ?_, ?_⟩
  · rw [hs'jobs, hjid]; exact hlook
  · intro hall
    rw [hs'ops] at hall
    rw [if_pos hall] at hstat
    exact hstat
  · intro hall hany
    rw [hs'ops] at hall hany
    rw [if_neg (by simp [hall]), if_pos hany] at hstat
    exact hstat
  · intro hall hany
    rw [hs'ops] at hall hany
    rw [if_neg (by simp [hall]), if_neg (by simp [hany])] at hstat
    exact hstat

/-- C2, witness for the amended theorem: pausing the only operation of job
`J` leaves the job's status at its previous value `IN_PROGRESS`. -/
theorem C2_witness :
    ∃ jobPost,
      lookupJob (update_job_operation_status pauseFixture "J-a" "PAUSED" "t1" "u"
          none none false none false 7).1.jobs "J" = some jobPost
      ∧ jobPost.status = "IN_PROGRESS" := by
  obtain ⟨jp, h1, h2, h3, h4⟩ := C2_amended pauseFixture "J-a" "PAUSED" "t1" "u"
      none none false none false 7 _ _ rfl rfl
  exact ⟨jp, h1, h4 (by decide) (by decide)⟩

/-!  Claim C4: cross-tenant lookups versus missing ids. -/

/-- C4, counterexample: a missing id and a cross-tenant id do NOT produce the
same error.  On `capacityFixture`, operation `o4` belongs to tenant `t1`;
calling as tenant `t2` with the nonexistent id `nope` raises
`Job operation not found` while calling with the existing id `o4` raises
`Unauthorized access to job operation` — the two errors differ, so the cases
are distinguishable to the caller. -/
theorem C4_counterexample :
    (update_job_operation_status capacityFixture "nope" "IN_PROGRESS" "t2" "u"
        none none false none false 0).2
      = .error (.valueError "Job operation not found")
    ∧ (update_job_operation_status capacityFixture "o4" "IN_PROGRESS" "t2" "u"
        none none false none false 0).2
      = .error (.valueError "Unauthorized access to job operation")
    ∧ (update_job_operation_status capacityFixture "nope" "IN_PROGRESS" "t2" "u"
        none none false none false 0).2
      ≠ (update_job_operation_status capacityFixture "o4" "IN_PROGRESS" "t2" "u"
        none none false none false 0).2 := by decide

/-- C4, amended: in all three core services a missing job-operation id raises
`Job operation not found` and an id owned by another tenant raises the
DIFFERENT error `Unauthorized access to job operation` (so the two cases are
distinguishable by message, contrary to the claim); in both cases the state
is returned unmodified. -/
theorem C4_amended (s : State) (missing_id present_id tenant : String)
    {op : JobOperation}
    (hmiss : lookupJobOp s.job_operations missing_id = none)
    (hpres : lookupJobOp s.job_operations present_id = some op)
    (hten : op.tenant_id ≠ tenant) :
    (∀ ns user qc qrj rf rn ov now,
        update_job_operation_status s missing_id ns tenant user qc qrj rf rn ov now
          = (s, .error (.valueError "Job operation not found"))
        ∧ update_job_operation_status s present_id ns tenant user qc qrj rf rn ov now
          = (s, .error (.valueError "Unauthorized access to job operation")))
    ∧ (∀ m sh ps pe force reason ign now,
        plan_job_operation_service s missing_id m sh ps pe force reason ign tenant now
          = (s, .error (.valueError "Job operation not found"))
        ∧ plan_job_operation_service s present_id m sh ps pe force reason ign tenant now
          = (s, .error (.valueError "Unauthorized access to job operation")))
    ∧ (∀ p sc r oper notes now,
        add_production_entry_service s missing_id p sc r oper tenant notes now
          = (s, .error (.valueError "Job operation not found"))
        ∧ add_production_entry_service s present_id p sc r oper tenant notes now
          = (s, .error (.valueError "Unauthorized access to job operation")))
    ∧ SvcError.valueError "Job operation not found"
        ≠ SvcError.valueError "Unauthorized access to job operation" := by
  refine ⟨fun ns user qc qrj rf rn ov now => ⟨?_, ?_⟩,
          fun m sh ps pe force reason ign now => ⟨?_, ?_⟩,
          fun p sc r oper notes now => ⟨?_, ?_⟩, by decide⟩
  · unfold update_job_operation_status; rw [hmiss]
  · unfold update_job_operation_status; rw [hpres]; dsimp only; rw [if_pos hten]
  · unfold plan_job_operation_service; rw [hmiss]
  · unfold plan_job_operation_service; rw [hpres]; dsimp only; rw [if_pos hten]
  · unfold add_production_entry_service; rw [hmiss]
  · unfold add_production_entry_service; rw [hpres]; dsimp only; rw [if_pos hten]

/-- C4, witness for the amended theorem, on `capacityFixture` as tenant
`t2`: both the status service and the production service return the two
distinct errors with the state unchanged. -/
theorem C4_witness :
    update_job_operation_status capacityFixture "nope" "IN_PROGRESS" "t2" "u"
        none none false none false 0
      = (capacityFixture, .error (.valueError "Job operation not found"))
    ∧ update_job_operation_status capacityFixture "o4" "IN_PROGRESS" "t2" "u"
        none none false none false 0
      = (capacityFixture, .error (.valueError "Unauthorized access to job operation"))
    ∧ add_production_entry_service capacityFixture "nope" 1 0 0 "u" "t2" none 0
      = (capacityFixture, .error (.valueError "Job operation not found"))
    ∧ add_production_entry_service capacityFixture "o4" 1 0 0 "u" "t2" none 0
      = (capacityFixture, .error (.valueError "Unauthorized access to job operation")) := by
  obtain ⟨hu, hp, ha, hne⟩ := C4_amended capacityFixture "nope" "o4" "t2" rfl rfl (by decide)
  exact ⟨(hu "IN_PROGRESS" "u" none none false none false 0).1,
         (hu "IN_PROGRESS" "u" none none false none false 0).2,
         (ha 1 0 0 "u" none 0).1, (ha 1 0 0 "u" none 0).2⟩

/-!  Claim C9: the transition table. -/

/-- C9: the state machine permits exactly NOT_STARTED→{IN_PROGRESS,
CANCELLED}, READY→{IN_PROGRESS}, IN_PROGRESS→{COMPLETED, PAUSED},
PAUSED→{IN_PROGRESS} and nothing else (COMPLETED and CANCELLED terminal,
unknown statuses allow nothing); and every transition outside the table makes
`update_job_operation_status` fail with the invalid-transition error, the
state returned unchanged. -/
theorem C9_theorem :
    (∀ cur new, is_valid_status_transition cur new = true ↔
        ((cur = "NOT_STARTED" ∧ (new = "IN_PROGRESS" ∨ new = "CANCELLED"))
       ∨ (cur = "READY" ∧ new = "IN_PROGRESS")
       ∨ (cur = "IN_PROGRESS" ∧ (new = "COMPLETED" ∨ new = "PAUSED"))
       ∨ (cur = "PAUSED" ∧ new = "IN_PROGRESS")))
    ∧ (∀ (s : State) (id tenant user : String) (qc qrj : Option Int) (rf : Bool)
        (rn : Option String) (ov : Bool) (now : Int) (new : String) (op : JobOperation),
        lookupJobOp s.job_operations id = some op →
        op.tenant_id = tenant →
        is_valid_status_transition op.status new = false →
        update_job_operation_status s id new tenant user qc qrj rf rn ov now
          = (s, .error (.valueError
              ("Invalid status transition: " ++ op.status ++ " → " ++ new)))) := by
  constructor
  · intro cur new
    unfold is_valid_status_transition ALLOWED_STATUS_TRANSITIONS
      OP_STATUS_NOT_STARTED OP_STATUS_READY OP_STATUS_IN_PROGRESS OP_STATUS_PAUSED
      OP_STATUS_COMPLETED OP_STATUS_CANCELLED
    split_ifs with h1 h2 h3 h4 <;> simp_all
  · intro s id tenant user qc qrj rf rn ov now new op hl ht hv
    unfold update_job_operation_status
    rw [hl]; dsimp only
    rw [if_neg (by simp [ht])]
    rw [if_pos (by simp [hv])]

/-- C9, witness: READY → PAUSED is outside the table, and attempting it on
operation `o4` of `capacityFixture` fails with the invalid-transition error,
state unchanged. -/
theorem C9_witness :
    update_job_operation_status capacityFixture "o4" "PAUSED" "t1" "u"
        none none false none false 0
      = (capacityFixture, .error (.valueError "Invalid status transition: READY → PAUSED"))
    ∧ (is_valid_status_transition "READY" "PAUSED" = true ↔
        (("READY" = "NOT_STARTED" ∧ ("PAUSED" = "IN_PROGRESS" ∨ "PAUSED" = "CANCELLED"))
       ∨ ("READY" = "READY" ∧ "PAUSED" = "IN_PROGRESS")
       ∨ ("READY" = "IN_PROGRESS" ∧ ("PAUSED" = "COMPLETED" ∨ "PAUSED" = "PAUSED"))
       ∨ ("READY" = "PAUSED" ∧ "PAUSED" = "IN_PROGRESS"))) :=
  ⟨C9_theorem.2 capacityFixture "o4" "t1" "u" none none false none false 0 "PAUSED" _
      rfl rfl (by decide),
   C9_theorem.1 "READY" "PAUSED"⟩

/-!  Claim C5: sequence enforcement and the scope of the override flag. -/

/-- Completion validation never raises the sequence-violation message; every
error it can produce carries one of its own six messages. -/
theorem completion_validation_msgs (s : State) (op : JobOperation)
    (qc qrj : Option Int) (rf : Bool) (rn : Option String) (e : SvcError)
    (h : completion_validation s op qc qrj rf rn = .error e) :
    e ≠ .valueError "Previous operation must be COMPLETED first" := by
  unfold completion_validation at h
  cases qc with
  | none =>
    simp only [Except.error.injEq] at h
    subst h; decide
  | some q =>
    dsimp only at h
    cases hj : lookupJob s.jobs op.job_id <;> rw [hj] at h <;> dsimp only at h <;>
      split_ifs at h <;>
        first
          | (simp only [Except.error.injEq] at h; subst h; decide)
          | simp at h

/-- The invalid-transition message can never coincide with the
sequence-violation message, whatever statuses are interpolated. -/
theorem invalid_transition_msg_ne (st ns : String) :
    "Invalid status transition: " ++ st ++ " → " ++ ns
      ≠ "Previous operation must be COMPLETED first" := by
  intro hc
  have hd := congrArg (fun x => x.data.head?) hc
  simp [String.data_append, List.head?_append] at hd

/-- Sequence enforcement fires: starting an operation whose predecessor is
not COMPLETED fails when the override flag is off. -/
theorem update_seq_violation (s : State) (id tenant user : String)
    (qc qrj : Option Int) (rf : Bool) (rn : Option String) (now : Int)
    (op : JobOperation)
    (hl : lookupJobOp s.job_operations id = some op)
    (ht : op.tenant_id = tenant)
    (hv : is_valid_status_transition op.status "IN_PROGRESS" = true)
    (hm : strOptTruthy op.machine_id = true)
    (hseq : op.sequence_number > 1)
    (hprev : prevOpNotCompleted s op = true) :
    update_job_operation_status s id "IN_PROGRESS" tenant user qc qrj rf rn false now
      = (s, .error (.valueError "Previous operation must be COMPLETED first")) := by
  unfold update_job_operation_status
  rw [hl]; dsimp only
  rw [if_neg (by simp [ht])]
  rw [if_neg (by simp [hv])]
  rw [if_neg (by simp [hm])]
  rw [if_pos ⟨rfl, by simp, hseq, hprev⟩]

/-- With the override flag set, no call can produce the sequence-violation
error. -/
theorem update_override_no_seq_error (s : State) (id ns tenant user : String)
    (qc qrj : Option Int) (rf : Bool) (rn : Option String) (now : Int) :
    (update_job_operation_status s id ns tenant user qc qrj rf rn true now).2
      ≠ .error (.valueError "Previous operation must be COMPLETED first") := by
  unfold update_job_operation_status
  cases hl : lookupJobOp s.job_operations id with
  | none => simp
  | some op =>
    dsimp only
    split_ifs with h1 h2 h3 h4
    all_goals try (solve | simp | (exfalso; simp at h4))
    all_goals try (solve
      | (intro hc
         simp only [Prod.snd, Except.error.injEq, SvcError.valueError.injEq] at hc
         exact invalid_transition_msg_ne op.status ns hc))
    all_goals
      cases hcv : completion_validation s op qc qrj rf rn with
      | error e =>
        simp only [hcv]
        intro hc
        simp only [Except.error.injEq] at hc
        first
          | exact completion_validation_msgs s op qc qrj rf rn e hcv hc
          | exact completion_validation_msgs s op qc qrj rf rn e hcv hc.symm
      | ok qr => simp [hcv]

/-- The planning prerequisite is checked regardless of the override flag. -/
theorem update_planning_required (s : State) (id tenant user : String)
    (qc qrj : Option Int) (rf : Bool) (rn : Option String) (ov : Bool) (now : Int)
    (op : JobOperation)
    (hl : lookupJobOp s.job_operations id = some op)
    (ht : op.tenant_id = tenant)
    (hv : is_valid_status_transition op.status "IN_PROGRESS" = true)
    (hps : op.status ≠ OP_STATUS_PAUSED)
    (hm : strOptTruthy op.machine_id = false) :
    update_job_operation_status s id "IN_PROGRESS" tenant user qc qrj rf rn ov now
      = (s, .error (.valueError
          "Cannot start operation: Machine not assigned (Planning required)")) := by
  unfold update_job_operation_status
  rw [hl]; dsimp only
  rw [if_neg (by simp [ht])]
  rw [if_neg (by simp [hv])]
  rw [if_pos ⟨rfl, hps, by simp [hm]⟩]

/-- Completion quantity validation runs regardless of the override flag, and
its error propagates unchanged with the state unmodified. -/
theorem update_completion_error (s : State) (id tenant user : String)
    (qc qrj : Option Int) (rf : Bool) (rn : Option String) (ov : Bool) (now : Int)
    (op : JobOperation) (e : SvcError)
    (hl : lookupJobOp s.job_operations id = some op)
    (ht : op.tenant_id = tenant)
    (hv : is_valid_status_transition op.status "COMPLETED" = true)
    (hcv : completion_validation s op qc qrj rf rn = .error e) :
    update_job_operation_status s id "COMPLETED" tenant user qc qrj rf rn ov now
      = (s, .error e) := by
  unfold update_job_operation_status
  rw [hl]; dsimp only
  rw [if_neg (by simp [ht])]
  rw [if_neg (by simp [hv])]
  rw [if_neg (fun hc => absurd hc.1 (by decide))]
  rw [if_neg (fun hc => absurd hc.1 (by decide))]
  rw [if_pos (by decide)]
  rw [hcv]

/-- C5: starting an operation with sequence number > 1 while the operation
with the previous sequence number on the same job is not COMPLETED fails with
the sequence-violation error unless `override_sequence` is set; and the
override bypasses only that check — it can never suppress the
machine-assigned planning prerequisite nor any completion quantity
validation error, and with it set the sequence-violation error can never be
produced. -/
theorem C5_theorem :
    (∀ (s : State) (id tenant user : String) (qc qrj : Option Int) (rf : Bool)
        (rn : Option String) (now : Int) (op : JobOperation),
      lookupJobOp s.job_operations id = some op →
      op.tenant_id = tenant →
      is_valid_status_transition op.status "IN_PROGRESS" = true →
      strOptTruthy op.machine_id = true →
      op.sequence_number > 1 →
      prevOpNotCompleted s op = true →
      update_job_operation_status s id "IN_PROGRESS" tenant user qc qrj rf rn false now
        = (s, .error (.valueError "Previous operation must be COMPLETED first")))
    ∧ (∀ (s : State) (id ns tenant user : String) (qc qrj : Option Int) (rf : Bool)
        (rn : Option String) (now : Int),
      (update_job_operation_status s id ns tenant user qc qrj rf rn true now).2
        ≠ .error (.valueError "Previous operation must be COMPLETED first"))
    ∧ (∀ (s : State) (id tenant user : String) (qc qrj : Option Int) (rf : Bool)
        (rn : Option String) (ov : Bool) (now : Int) (op : JobOperation),
      lookupJobOp s.job_operations id = some op →
      op.tenant_id = tenant →
      is_valid_status_transition op.status "IN_PROGRESS" = true →
      op.status ≠ OP_STATUS_PAUSED →
      strOptTruthy op.machine_id = false →
      update_job_operation_status s id "IN_PROGRESS" tenant user qc qrj rf rn ov now
        = (s, .error (.valueError
            "Cannot start operation: Machine not assigned (Planning required)")))
    ∧ (∀ (s : State) (id tenant user : String) (qc qrj : Option Int) (rf : Bool)
        (rn : Option String) (ov : Bool) (now : Int) (op : JobOperation) (e : SvcError),
      lookupJobOp s.job_operations id = some op →
      op.tenant_id = tenant →
      is_valid_status_transition op.status "COMPLETED" = true →
      completion_validation s op qc qrj rf rn = .error e →
      update_job_operation_status s id "COMPLETED" tenant user qc qrj rf rn ov now
        = (s, .error e)) :=
  ⟨fun s id tenant user qc qrj rf rn now op hl ht hv hm hseq hprev =>
      update_seq_violation s id tenant user qc qrj rf rn now op hl ht hv hm hseq hprev,
   fun s id ns tenant user qc qrj rf rn now =>
      update_override_no_seq_error s id ns tenant user qc qrj rf rn now,
   fun s id tenant user qc qrj rf rn ov now op hl ht hv hps hm =>
      update_planning_required s id tenant user qc qrj rf rn ov now op hl ht hv hps hm,
   fun s id tenant user qc qrj rf rn ov now op e hl ht hv hcv =>
      update_completion_error s id tenant user qc qrj rf rn ov now op e hl ht hv hcv⟩

/-- C5, witness: on `seqFixture`, starting `J-b` (sequence 2) while `J-a` is
still IN_PROGRESS fails with the sequence violation; the same call with the
override set does not produce that error; starting the unplanned `o4` of
`capacityFixture` with the override set still fails with the planning error;
and completing `J-a` without a quantity, override set, still fails with the
required-quantity error. -/
theorem C5_witness :
    update_job_operation_status seqFixture "J-b" "IN_PROGRESS" "t1" "u"
        none none false none false 3
      = (seqFixture, .error (.valueError "Previous operation must be COMPLETED first"))
    ∧ (update_job_operation_status seqFixture "J-b" "IN_PROGRESS" "t1" "u"
        none none false none true 3).2
      ≠ .error (.valueError "Previous operation must be COMPLETED first")
    ∧ update_job_operation_status capacityFixture "o4" "IN_PROGRESS" "t1" "u"
        none none false none true 3
      = (capacityFixture, .error (.valueError
          "Cannot start operation: Machine not assigned (Planning required)"))
    ∧ update_job_operation_status seqFixture "J-a" "COMPLETED" "t1" "u"
        none none false none true 3
      = (seqFixture, .error (.valueError
          "quantity_completed is required when completing an operation")) :=
  ⟨C5_theorem.1 seqFixture "J-b" "t1" "u" none none false none 3 _
      rfl rfl (by decide) (by decide) (by decide) (by decide),
   C5_theorem.2.1 seqFixture "J-b" "IN_PROGRESS" "t1" "u" none none false none 3,
   C5_theorem.2.2.1 capacityFixture "o4" "t1" "u" none none false none true 3 _
      rfl rfl (by decide) (by decide) (by decide),
   C5_theorem.2.2.2 seqFixture "J-a" "t1" "u" none none false none true 3 _ _
      rfl rfl (by decide) rfl⟩

/-!  Claim C3: capacity conflicts. -/

/-- C3, counterexample: with `ignoreConflicts=true` and a reason, the
assignment proceeds but NO notification is broadcast, contrary to the claim.
On `capacityFixture` the requested window [2,5] clashes with all three
operations on machine `m1` / shift `sh1`, yet after the successful override
call the notifications table is still empty.  (The CONFLICT notification is
emitted on the rejection path instead.) -/
theorem C3_counterexample :
    (clashesFor capacityFixture "o4" "m1" "sh1" 2 5).length = 3
    ∧ ((plan_job_operation_service capacityFixture "o4" "m1" "sh1" 2 5 false
        (some "why") true "t1" 9).2).isOk = true
    ∧ (plan_job_operation_service capacityFixture "o4" "m1" "sh1" 2 5 false
        (some "why") true "t1" 9).1.notifications = [] := by decide

/-- C3, amended: when the clash count on the requested machine+shift reaches
the capacity ceiling of 3, planning with `ignoreConflicts=false` first
broadcasts a CONFLICT notification (null user) and then rejects with
`CapacityConflictError` carrying exactly the computed clash list; with
`ignoreConflicts=true` and a non-empty reason the assignment proceeds and NO
notification is emitted. -/
theorem C3_amended (s : State) (id machine shift_id : String) (ps pe : Int)
    (tenant : String) (now : Int) (op : JobOperation) (mach : Machine) (sh : Shift)
    (hl : lookupJobOp s.job_operations id = some op)
    (ht : op.tenant_id = tenant)
    (h1 : op.status ≠ "COMPLETED") (h2 : op.status ≠ "CANCELLED")
    (h3 : op.status ≠ "IN_PROGRESS") (h4 : op.status ≠ "PAUSED")
    (hm : s.machines.find? (fun m => m.machine_id == machine) = some mach)
    (hmt : mach.tenant_id = op.tenant_id)
    (hsh : s.shifts.find? (fun x => x.shift_id == shift_id) = some sh)
    (hsht : sh.tenant_id = op.tenant_id)
    (hdate : ps ≤ pe)
    (hcl : (clashesFor s id machine shift_id ps pe).length ≥ MAX_OPS_PER_SHIFT) :
    (∀ force reason,
      plan_job_operation_service s id machine shift_id ps pe force reason false tenant now
        = (create_notification s op.tenant_id none "CONFLICT"
            ("Capacity overload detected on " ++ machine ++ " during planning. Limit: 3")
            id now,
           .error (.capacityConflict
             "Machine capacity overloaded. Max 3 operations per shift."
             (clashesFor s id machine shift_id ps pe))))
    ∧ (∀ force reason, strOptTruthy reason = true →
        (plan_job_operation_service s id machine shift_id ps pe force reason true
            tenant now).2
          = .ok { op with machine_id := some machine, shift_id := some shift_id,
                          planned_start_date := some ps, planned_end_date := some pe,
                          updated_at := some now }
        ∧ (plan_job_operation_service s id machine shift_id ps pe force reason true
            tenant now).1.notifications = s.notifications) := by
  constructor
  · intro force reason
    unfold plan_job_operation_service
    rw [hl]; dsimp only
    rw [if_neg (by simp [ht])]
    rw [if_neg (by simp [h1, h2])]
    rw [if_neg h1]
    rw [if_neg (by rintro ⟨hc | hc, -⟩; exact h3 hc; exact h4 hc)]
    rw [if_neg (by rintro ⟨hc | hc, -⟩; exact h3 hc; exact h4 hc)]
    rw [hm]; dsimp only
    rw [if_neg (by simp [hmt])]
    rw [hsh]; dsimp only
    rw [if_neg (by simp [hsht])]
    rw [if_neg (by omega)]
    rw [if_pos ⟨hcl, by simp⟩]
  · intro force reason hreason
    unfold plan_job_operation_service
    rw [hl]; dsimp only
    rw [if_neg (by simp [ht])]
    rw [if_neg (by simp [h1, h2])]
    rw [if_neg h1]
    rw [if_neg (by rintro ⟨hc | hc, -⟩; exact h3 hc; exact h4 hc)]
    rw [if_neg (by rintro ⟨hc | hc, -⟩; exact h3 hc; exact h4 hc)]
    rw [hm]; dsimp only
    rw [if_neg (by simp [hmt])]
    rw [hsh]; dsimp only
    rw [if_neg (by simp [hsht])]
    rw [if_neg (by omega)]
    rw [if_neg (by simp)]
    rw [if_neg (by simp [hreason])]
    exact ⟨rfl, rfl⟩

/-- C3, witness for the amended theorem on `capacityFixture`: rejection with
the three clashing operations plus a CONFLICT broadcast, and the successful
silent override. -/
theorem C3_witness :
    plan_job_operation_service capacityFixture "o4" "m1" "sh1" 2 5 false none false "t1" 9
      = (create_notification capacityFixture "t1" none "CONFLICT"
          ("Capacity overload detected on " ++ "m1" ++ " during planning. Limit: 3")
          "o4" 9,
         .error (.capacityConflict
           "Machine capacity overloaded. Max 3 operations per shift."
           (clashesFor capacityFixture "o4" "m1" "sh1" 2 5)))
    ∧ ((plan_job_operation_service capacityFixture "o4" "m1" "sh1" 2 5 false
          (some "why") true "t1" 9).2
        = .ok { job_operation_id := "o4", job_id := "J4", tenant_id := "t1",
                operation_id := "a", sequence_number := 1, status := "READY",
                machine_id := some "m1", shift_id := some "sh1",
                planned_start_date := some 2, planned_end_date := some 5,
                updated_at := some 9 }
      ∧ (plan_job_operation_service capacityFixture "o4" "m1" "sh1" 2 5 false
          (some "why") true "t1" 9).1.notifications = capacityFixture.notifications) := by
  have h := C3_amended capacityFixture "o4" "m1" "sh1" 2 5 "t1" 9 _ _ _
      rfl rfl (by decide) (by decide) (by decide) (by decide) rfl (by decide) rfl
      (by decide) (by decide) (by decide)
  exact ⟨h.1 false none, h.2 false (some "why") (by decide)⟩

/-!  Claim C10: event classification on first planning. -/

/-- A state paired with an error can never equal a state paired with a
success. -/
theorem pair_error_ne_ok {α : Type} (s1 s2 : State) (e : SvcError) (x : α) :
    (s1, (Except.error e : Except SvcError α)) ≠ (s2, Except.ok x) := by
  intro hc
  exact Except.noConfusion (congrArg Prod.snd hc)

/-- Every successful planning call appends exactly one audit record whose
action is `OP_PLANNED` when the operation's prior status was NOT_STARTED and
`OP_RESCHEDULED` otherwise. -/
theorem plan_ok_shape (s : State) (id machine shift_id : String) (ps pe : Int)
    (force : Bool) (reason : Option String) (ign : Bool) (tenant : String) (now : Int)
    (s' : State) (op' : JobOperation)
    (h : plan_job_operation_service s id machine shift_id ps pe force reason ign tenant now
          = (s', .ok op')) :
    ∃ op, lookupJobOp s.job_operations id = some op
      ∧ s'.audit_log = s.audit_log ++
          [{ tenant_id := op.tenant_id, entity_type := "JOB_OPERATION", entity_id := id,
             action := if op.status = "NOT_STARTED" then "OP_PLANNED" else "OP_RESCHEDULED",
             user_id := "supervisor-user-id", timestamp := now }] := by
  unfold plan_job_operation_service at h
  cases hl : lookupJobOp s.job_operations id with
  | none => rw [hl] at h; exact absurd h (pair_error_ne_ok _ _ _ _)
  | some op =>
    rw [hl] at h
    dsimp only at h
    by_cases c1 : op.tenant_id ≠ tenant
    · rw [if_pos c1] at h; exact absurd h (pair_error_ne_ok _ _ _ _)
    rw [if_neg c1] at h
    by_cases c2 : op.status = "COMPLETED" ∨ op.status = "CANCELLED"
    · rw [if_pos c2] at h; exact absurd h (pair_error_ne_ok _ _ _ _)
    rw [if_neg c2] at h
    by_cases c3 : op.status = "COMPLETED"
    · rw [if_pos c3] at h; exact absurd h (pair_error_ne_ok _ _ _ _)
    rw [if_neg c3] at h
    by_cases c4 : (op.status = "IN_PROGRESS" ∨ op.status = "PAUSED") ∧ ¬ force
    · rw [if_pos c4] at h; exact absurd h (pair_error_ne_ok _ _ _ _)
    rw [if_neg c4] at h
    by_cases c5 : (op.status = "IN_PROGRESS" ∨ op.status = "PAUSED")
        ∧ ¬ strOptTruthy reason
    · rw [if_pos c5] at h; exact absurd h (pair_error_ne_ok _ _ _ _)
    rw [if_neg c5] at h
    cases hm : s.machines.find? (fun m => m.machine_id == machine) with
    | none => rw [hm] at h; exact absurd h (pair_error_ne_ok _ _ _ _)
    | some mach =>
      rw [hm] at h
      dsimp only at h
      by_cases c6 : mach.tenant_id ≠ op.tenant_id
      · rw [if_pos c6] at h; exact absurd h (pair_error_ne_ok _ _ _ _)
      rw [if_neg c6] at h
      cases hsh : s.shifts.find? (fun x => x.shift_id == shift_id) with
      | none => rw [hsh] at h; exact absurd h (pair_error_ne_ok _ _ _ _)
      | some sh =>
        rw [hsh] at h
        dsimp only at h
        by_cases c7 : sh.tenant_id ≠ op.tenant_id
        · rw [if_pos c7] at h; exact absurd h (pair_error_ne_ok _ _ _ _)
        rw [if_neg c7] at h
        by_cases c8 : ps > pe
        · rw [if_pos c8] at h; exact absurd h (pair_error_ne_ok _ _ _ _)
        rw [if_neg c8] at h
        by_cases c9 : (clashesFor s id machine shift_id ps pe).length ≥ MAX_OPS_PER_SHIFT
            ∧ ¬ ign
        · rw [if_pos c9] at h; exact absurd h (pair_error_ne_ok _ _ _ _)
        rw [if_neg c9] at h
        by_cases c10 : (clashesFor s id machine shift_id ps pe).length ≥ MAX_OPS_PER_SHIFT
            ∧ ¬ strOptTruthy reason
        · rw [if_pos c10] at h; exact absurd h (pair_error_ne_ok _ _ _ _)
        rw [if_neg c10] at h
        injection h with hs' hop'
        exact ⟨op, rfl, by rw [← hs']; rfl⟩

/-- C10: route creation gives the operation at route index 0 status READY,
while the planning service classifies the audited event as `OP_PLANNED` only
when the operation's status is NOT_STARTED at planning time; hence the
first-ever planning of a job's first operation (still READY) is always
recorded as `OP_RESCHEDULED` and never as `OP_PLANNED`. -/
theorem C10_theorem :
    (∀ (job_id tenant_id op_id : String),
        (mkJobOperation job_id tenant_id op_id 0).status = OP_STATUS_READY)
    ∧ (∀ (s : State) (id machine shift_id : String) (ps pe : Int) (force : Bool)
        (reason : Option String) (ign : Bool) (tenant : String) (now : Int)
        (s' : State) (op' op : JobOperation),
        plan_job_operation_service s id machine shift_id ps pe force reason ign tenant now
          = (s', .ok op') →
        lookupJobOp s.job_operations id = some op →
        op.status = "READY" →
        s'.audit_log = s.audit_log ++
          [{ tenant_id := op.tenant_id, entity_type := "JOB_OPERATION", entity_id := id,
             action := "OP_RESCHEDULED", user_id := "supervisor-user-id",
             timestamp := now }]
        ∧ "OP_RESCHEDULED" ≠ "OP_PLANNED") := by
  refine ⟨fun j t o => rfl, ?_⟩
  intro s id machine shift_id ps pe force reason ign tenant now s' op' op hok hl hst
  obtain ⟨op2, hl2, haud⟩ := plan_ok_shape s id machine shift_id ps pe force reason
      ign tenant now s' op' hok
  rw [hl] at hl2
  injection hl2 with he
  subst he
  rw [hst] at haud
  have hred : (if ("READY" : String) = "NOT_STARTED"
      then "OP_PLANNED" else "OP_RESCHEDULED") = "OP_RESCHEDULED" := by decide
  rw [hred] at haud
  exact ⟨haud, by decide⟩

/-- C10, witness: planning the READY operation `o4` of `capacityFixture` on a
clash-free window records `OP_RESCHEDULED`. -/
theorem C10_witness :
    (mkJobOperation "J" "t1" "op-x" 0).status = OP_STATUS_READY
    ∧ (plan_job_operation_service capacityFixture "o4" "m1" "sh1" 20 25 false none
        false "t1" 9).1.audit_log
      = capacityFixture.audit_log ++
        [{ tenant_id := "t1", entity_type := "JOB_OPERATION", entity_id := "o4",
           action := "OP_RESCHEDULED", user_id := "supervisor-user-id", timestamp := 9 }] := by
  refine ⟨C10_theorem.1 "J" "t1" "op-x", ?_⟩
  have h := C10_theorem.2 capacityFixture "o4" "m1" "sh1" 20 25 false none false "t1" 9
      _ _ _ rfl rfl rfl
  exact h.1

/-!  Claims C7 and C8: route creation. -/

/-- Boolean string equality is false on distinct strings. -/
theorem beq_str_false (a b : String) (h : a ≠ b) : (a == b) = false := by
  simpa using h

/-- The derived job-operation key `f"{job_id}-{op_id}"` is injective in the
operation-type id for a fixed job. -/
theorem key_append_injective (j a b : String) (h : j ++ "-" ++ a = j ++ "-" ++ b) :
    a = b := by
  have hd := congrArg String.data h
  simp only [String.data_append, List.append_assoc] at hd
  exact String.ext (List.append_cancel_left (List.append_cancel_left hd))

/-- After a dict assignment the inserted key maps to the inserted row,
whether the key was present (replace in place) or absent (append). -/
theorem lookup_dictInsertOp_self (tbl : List JobOperation) (op : JobOperation) :
    lookupJobOp (dictInsertOp tbl op) op.job_operation_id = some op := by
  unfold dictInsertOp lookupJobOp
  by_cases hany : tbl.any (fun o => o.job_operation_id == op.job_operation_id)
  · rw [if_pos hany]
    rw [find?_map_eq tbl _ _ ?hp]
    case hp =>
      intro x
      by_cases hx : x.job_operation_id == op.job_operation_id
      · simp [hx]
      · simp [hx]
    obtain ⟨x, hxmem, hxp⟩ := List.any_eq_true.mp hany
    cases hfind : tbl.find? (fun o => o.job_operation_id == op.job_operation_id) with
    | none =>
      rw [List.find?_eq_none] at hfind
      exact absurd hxp (hfind x hxmem)
    | some y =>
      have hy := List.find?_some hfind
      simp only [Option.map_some']
      rw [if_pos hy]
  · rw [if_neg hany]
    rw [List.find?_append]
    have h1 : tbl.find? (fun o => o.job_operation_id == op.job_operation_id) = none := by
      rw [List.find?_eq_none]
      intro x hx hpx
      exact hany (List.any_eq_true.mpr ⟨x, hx, hpx⟩)
    rw [h1]
    rw [List.find?_cons_of_pos _ (by simp)]
    rfl

/-- A dict assignment leaves every other key's lookup unchanged. -/
theorem lookup_dictInsertOp_other (tbl : List JobOperation) (op : JobOperation)
    (k : String) (hk : k ≠ op.job_operation_id) :
    lookupJobOp (dictInsertOp tbl op) k = lookupJobOp tbl k := by
  have hop : (op.job_operation_id == k) = false := beq_str_false _ _ (Ne.symm hk)
  unfold dictInsertOp lookupJobOp
  by_cases hany : tbl.any (fun o => o.job_operation_id == op.job_operation_id)
  · rw [if_pos hany]
    rw [find?_map_eq tbl _ _ ?hp]
    case hp =>
      intro x
      by_cases hx : x.job_operation_id == op.job_operation_id
      · have hxeq : x.job_operation_id = op.job_operation_id := by simpa using hx
        have h2 : (x.job_operation_id == k) = false := by
          rw [hxeq]; exact hop
        simp [hx, hop, h2]
      · simp [hx]
    cases hfind : tbl.find? (fun o => o.job_operation_id == k) with
    | none => rfl
    | some y =>
      have hy : y.job_operation_id = k := by simpa using List.find?_some hfind
      have h3 : (y.job_operation_id == op.job_operation_id) = false := by
        rw [hy]; exact beq_str_false _ _ hk
      simp only [Option.map_some']
      rw [if_neg (by simp [h3])]
  · rw [if_neg hany]
    rw [List.find?_append]
    rw [List.find?_cons_of_neg _ (by simp [hop])]
    simp

/-- Without fault injection the creation loop never fails and returns one id
per route entry, in route order. -/
theorem createLoop_none_ids (job tenant : String) (route : List String)
    (tbl : List JobOperation) (k : Nat) :
    (createLoop tbl job tenant route k none).2.2 = false
    ∧ (createLoop tbl job tenant route k none).2.1
        = route.map (fun o => job ++ "-" ++ o) := by
  induction route generalizing tbl k with
  | nil => exact ⟨rfl, rfl⟩
  | cons a rest ih =>
    unfold createLoop
    rw [if_neg (by simp)]
    dsimp only
    obtain ⟨h1, h2⟩ := ih (dictInsertOp tbl (mkJobOperation job tenant a k)) (k + 1)
    refine ⟨h1, ?_⟩
    rw [h2, List.map_cons]
    rfl

/-- The creation loop does not disturb the lookup of any key outside the
route's derived keys. -/
theorem createLoop_lookup_untouched (job tenant : String) (route : List String)
    (tbl : List JobOperation) (k : Nat) (key : String)
    (hkey : ∀ o ∈ route, key ≠ job ++ "-" ++ o) :
    lookupJobOp (createLoop tbl job tenant route k none).1 key = lookupJobOp tbl key := by
  induction route generalizing tbl k with
  | nil => rfl
  | cons a rest ih =>
    unfold createLoop
    rw [if_neg (by simp)]
    dsimp only
    rw [ih _ (k + 1) (fun o ho => hkey o (List.mem_cons_of_mem _ ho))]
    exact lookup_dictInsertOp_other _ _ _ (hkey a (List.mem_cons_self _ _))

/-- For a duplicate-free route, after the creation loop the derived key of
the route entry at index `i` maps to exactly the record built for index
`start + i`. -/
theorem createLoop_lookup (job tenant : String) (route : List String) (o : String)
    (tbl : List JobOperation) (k i : Nat)
    (hnd : route.Nodup) (hio : route.get? i = some o) :
    lookupJobOp (createLoop tbl job tenant route k none).1 (job ++ "-" ++ o)
      = some (mkJobOperation job tenant o (k + i)) := by
  induction route generalizing tbl k i with
  | nil => simp at hio
  | cons a rest ih =>
    unfold createLoop
    rw [if_neg (by simp)]
    dsimp only
    cases i with
    | zero =>
      have ha : a = o := by simpa using hio
      subst ha
      rw [createLoop_lookup_untouched job tenant rest _ (k + 1) _ ?hk]
      case hk =>
        intro x hx hceq
        have hax : a = x := key_append_injective job a x hceq
        exact (List.nodup_cons.mp hnd).1 (hax ▸ hx)
      simpa using lookup_dictInsertOp_self tbl (mkJobOperation job tenant a k)
    | succ n =>
      have hio' : rest.get? n = some o := by simpa using hio
      have := ih (dictInsertOp tbl (mkJobOperation job tenant a k)) (k + 1) n
        (List.nodup_cons.mp hnd).2 hio'
      have harith : k + 1 + n = k + (n + 1) := by omega
      rw [harith] at this
      exact this

/-- C8, amended: for a validated DUPLICATE-FREE route,
`create_job_operations` creates exactly one JobOperation per route entry —
the key of entry `i` maps to the record with sequence number `i + 1` in
route order, status READY for the first entry and NOT_STARTED for all
others, and the returned id list has one id per entry.  (The claim's
"including when the route contains the same operation-type id more than
once" is false: duplicate entries collapse onto one key.) -/
theorem C8_amended (s : State) (job part tenant : String) (route : List String)
    (hv : validate_part_route s part tenant = .ok route)
    (hnd : route.Nodup) :
    (create_job_operations s job part tenant none).2
      = .ok (route.map (fun o => job ++ "-" ++ o))
    ∧ (∀ i o, route.get? i = some o →
        lookupJobOp (create_job_operations s job part tenant none).1.job_operations
            (job ++ "-" ++ o)
          = some (mkJobOperation job tenant o i)
        ∧ (mkJobOperation job tenant o i).sequence_number = i + 1
        ∧ (mkJobOperation job tenant o i).status
            = (if i = 0 then OP_STATUS_READY else OP_STATUS_NOT_STARTED)) := by
  obtain ⟨hfail, hids⟩ := createLoop_none_ids job tenant route s.job_operations 0
  constructor
  · unfold create_job_operations
    rw [hv]
    dsimp only
    rw [if_neg (by simp [hfail])]
    dsimp only
    rw [hids]
  · intro i o hio
    refine ⟨?_, rfl, ?_⟩
    · unfold create_job_operations
      rw [hv]
      dsimp only
      rw [if_neg (by simp [hfail])]
      dsimp only
      have := createLoop_lookup job tenant route o s.job_operations 0 i hnd hio
      simpa using this
    · by_cases hz : i = 0 <;> simp [mkJobOperation, hz]

/-- C8, witness: the two-step distinct route of part `p2` yields two
operations with sequences 1 and 2, the first READY, the second
NOT_STARTED. -/
theorem C8_witness :
    (create_job_operations routeFixture "J" "p2" "t1" none).2 = .ok ["J-op-x", "J-op-y"]
    ∧ lookupJobOp
        (create_job_operations routeFixture "J" "p2" "t1" none).1.job_operations "J-op-x"
        = some (mkJobOperation "J" "t1" "op-x" 0)
    ∧ lookupJobOp
        (create_job_operations routeFixture "J" "p2" "t1" none).1.job_operations "J-op-y"
        = some (mkJobOperation "J" "t1" "op-y" 1)
    ∧ (mkJobOperation "J" "t1" "op-x" 0).sequence_number = 1
    ∧ (mkJobOperation "J" "t1" "op-x" 0).status = OP_STATUS_READY
    ∧ (mkJobOperation "J" "t1" "op-y" 1).sequence_number = 2
    ∧ (mkJobOperation "J" "t1" "op-y" 1).status = OP_STATUS_NOT_STARTED := by
  have h := C8_amended routeFixture "J" "p2" "t1" ["op-x", "op-y"] rfl (by decide)
  refine ⟨h.1, (h.2 0 "op-x" rfl).1, (h.2 1 "op-y" rfl).1,
    (h.2 0 "op-x" rfl).2.1, ?_, (h.2 1 "op-y" rfl).2.1, ?_⟩
  · simpa using (h.2 0 "op-x" rfl).2.2
  · simpa using (h.2 1 "op-y" rfl).2.2

/-- C7: `create_job_operations` is all-or-nothing.  Whenever the call
returns an error — any validation failure, or a failure injected at any
point of the creation loop — none of the ids created by this call remain in
the store, and a validation failure leaves the whole state untouched. -/
theorem C7_theorem (s : State) (job part tenant : String) (failAt : Option Nat)
    (s' : State) (e : SvcError)
    (h : create_job_operations s job part tenant failAt = (s', .error e)) :
    (∀ id ∈ createdIdsOfCall s job part tenant failAt,
        lookupJobOp s'.job_operations id = none)
    ∧ (∀ e2, validate_part_route s part tenant = .error e2 → s' = s) := by
  unfold create_job_operations at h
  unfold createdIdsOfCall
  cases hv : validate_part_route s part tenant with
  | error e2 =>
    rw [hv] at h
    injection h with hs _
    refine ⟨fun id hid => absurd hid (List.not_mem_nil id), fun _ _ => hs.symm⟩
  | ok route =>
    rw [hv] at h
    dsimp only at h
    by_cases hf : (createLoop s.job_operations job tenant route 0 failAt).2.2 = true
    · rw [if_pos hf] at h
      injection h with hs _
      refine ⟨?_, ?_⟩
      · intro id hid
        rw [← hs]
        exact lookupJobOp_popOps_mem _ _ _ hid
      · intro e2 hv2
        exact absurd hv2 (by simp)
    · rw [if_neg hf] at h
      exact Except.noConfusion (congrArg Prod.snd h)

/-- C7, witness: injecting a failure before the second operation of part
`p2`'s route removes the already-created first operation. -/
theorem C7_witness :
    "J-op-x" ∈ createdIdsOfCall routeFixture "J" "p2" "t1" (some 1)
    ∧ lookupJobOp
        (create_job_operations routeFixture "J" "p2" "t1" (some 1)).1.job_operations
        "J-op-x" = none := by
  have h := C7_theorem routeFixture "J" "p2" "t1" (some 1) _ _ rfl
  exact ⟨by decide, h.1 "J-op-x" (by decide)⟩

/-- C8, counterexample: with the duplicate route `["op-x", "op-x"]` of part
`p1` (two entries), creation succeeds but produces a single stored operation
— the second entry overwrote the first under the shared key `J-op-x` — with
sequence number 2 and status NOT_STARTED, and NO operation of the job has
sequence number 1. -/
theorem C8_counterexample :
    (create_job_operations routeFixture "J" "p1" "t1" none).2
      = .ok ["J-op-x", "J-op-x"]
    ∧ ((create_job_operations routeFixture "J" "p1" "t1" none).1.job_operations.filter
        (fun op => op.job_id == "J")).length = 1
    ∧ ((create_job_operations routeFixture "J" "p1" "t1" none).1.job_operations.filter
        (fun op => op.job_id == "J" && op.sequence_number == 1)) = []
    ∧ lookupJobOp
        (create_job_operations routeFixture "J" "p1" "t1" none).1.job_operations "J-op-x"
      = some { job_operation_id := "J-op-x", job_id := "J", tenant_id := "t1",
               operation_id := "op-x", sequence_number := 2, status := "NOT_STARTED" } := by
  decide

/-!  Claim C6: auto-advance on completion. -/

/-- A `find?` is unchanged by a map that preserves the predicate on the
list's elements and fixes every element satisfying it. -/
theorem find?_map_eq_of {α : Type} (l : List α) (g : α → α) (p : α → Bool)
    (hpres : ∀ x ∈ l, p (g x) = p x)
    (hfix : ∀ x ∈ l, p x = true → g x = x) :
    List.find? p (l.map g) = List.find? p l := by
  induction l with
  | nil => rfl
  | cons a t ih =>
    rw [List.map_cons]
    cases hpa : p a with
    | true =>
      rw [List.find?_cons_of_pos _ (by rw [hpres a (List.mem_cons_self _ _), hpa])]
      rw [List.find?_cons_of_pos _ hpa]
      rw [hfix a (List.mem_cons_self _ _) hpa]
    | false =>
      rw [List.find?_cons_of_neg _ (by rw [hpres a (List.mem_cons_self _ _), hpa]; simp)]
      rw [List.find?_cons_of_neg _ (by rw [hpa]; simp)]
      exact ih (fun x hx => hpres x (List.mem_cons_of_mem _ hx))
        (fun x hx => hfix x (List.mem_cons_of_mem _ hx))

/-- Rollup never touches the notifications table. -/
theorem rollupJobStatus_notifications (s : State) (jid : String) (now : Int) :
    (rollupJobStatus s jid now).notifications = s.notifications := by
  unfold rollupJobStatus
  cases lookupJob s.jobs jid <;> rfl

/-- Reduction of a COMPLETED status update whose guards pass: timestamps are
applied, the table entry replaced, auto-advance runs, the job is rolled up
and one audit record appended. -/
theorem update_completed_shape (s : State) (id tenant user : String)
    (qc qrj : Option Int) (rf : Bool) (rn : Option String) (ov : Bool) (now : Int)
    (op : JobOperation) (qr : Int)
    (hl : lookupJobOp s.job_operations id = some op)
    (ht : op.tenant_id = tenant)
    (hv : is_valid_status_transition op.status "COMPLETED" = true)
    (hcv : completion_validation s op qc qrj rf rn = .ok qr) :
    update_job_operation_status s id "COMPLETED" tenant user qc qrj rf rn ov now
      = (log_audit_event
          (rollupJobStatus
            (autoAdvance
              { s with job_operations := (updateOp s.job_operations id (fun _ =>
                  { applyTimestamps op op.status "COMPLETED" user qc qr now with
                    status := "COMPLETED" })) }
              { applyTimestamps op op.status "COMPLETED" user qc qr now with
                status := "COMPLETED" } now)
            op.job_id now)
          op.tenant_id "JOB_OPERATION" id "STATUS_CHANGED" user now,
        .ok { applyTimestamps op op.status "COMPLETED" user qc qr now with
              status := "COMPLETED" }) := by
  unfold update_job_operation_status
  rw [hl]; dsimp only
  rw [if_neg (by simp [ht])]
  rw [if_neg (by simp [hv])]
  rw [if_neg (fun hc => absurd hc.1 (by decide))]
  rw [if_neg (fun hc => absurd hc.1 (by decide))]
  rw [if_pos (show ("COMPLETED" : String) = OP_STATUS_COMPLETED from rfl)]
  rw [hcv]
  dsimp only
  rw [if_pos (show ("COMPLETED" : String) = OP_STATUS_COMPLETED from rfl)]

/-- An in-place dict update whose old and new rows both fail the predicate
does not move a `find?` (the key determines the row, as in a Python dict). -/
theorem find?_updateOp_stable (tbl : List JobOperation) (id : String)
    (op v : JobOperation) (p : JobOperation → Bool)
    (hkeys : ∀ o ∈ tbl, o.job_operation_id = id → o = op)
    (hpop : p op = false) (hpv : p v = false) :
    List.find? p (updateOp tbl id (fun _ => v)) = List.find? p tbl := by
  unfold updateOp
  apply find?_map_eq_of
  · intro x hx
    by_cases hxk : x.job_operation_id == id
    · have hxe : x = op := hkeys x hx (by simpa using hxk)
      rw [if_pos hxk, hpv, hxe, hpop]
    · rw [if_neg hxk]
  · intro x hx hpx
    by_cases hxk : x.job_operation_id == id
    · have hxe : x = op := hkeys x hx (by simpa using hxk)
      rw [hxe, hpop] at hpx
      cases hpx
    · rw [if_neg hxk]

/-- C6: completing an operation promotes the next-in-sequence operation of
the same job.  If that next operation already has machine, shift and both
planned dates set, it becomes READY and exactly one READY notification with
null user id (broadcast) is appended; otherwise it becomes NOT_STARTED with
`needs_planning = true` and the notifications table is unchanged. -/
theorem C6_theorem (s : State) (id tenant user : String)
    (qc qrj : Option Int) (rf : Bool) (rn : Option String) (ov : Bool) (now : Int)
    (op next_op : JobOperation) (qr : Int)
    (hl : lookupJobOp s.job_operations id = some op)
    (ht : op.tenant_id = tenant)
    (hst : op.status = "IN_PROGRESS")
    (hcv : completion_validation s op qc qrj rf rn = .ok qr)
    (hkeys : ∀ o ∈ s.job_operations, o.job_operation_id = id → o = op)
    (hnext : s.job_operations.find? (fun o =>
        o.job_id == op.job_id && o.sequence_number == op.sequence_number + 1)
      = some next_op)
    (hkn : lookupJobOp s.job_operations next_op.job_operation_id = some next_op) :
    ((strOptTruthy next_op.machine_id = true ∧ strOptTruthy next_op.shift_id = true
        ∧ next_op.planned_start_date.isSome = true
        ∧ next_op.planned_end_date.isSome = true) →
      ((update_job_operation_status s id "COMPLETED" tenant user qc qrj rf rn ov
          now).2.isOk = true
      ∧ lookupJobOp (update_job_operation_status s id "COMPLETED" tenant user qc qrj rf rn
            ov now).1.job_operations next_op.job_operation_id
          = some { next_op with status := OP_STATUS_READY }
      ∧ (update_job_operation_status s id "COMPLETED" tenant user qc qrj rf rn ov
            now).1.notifications
          = s.notifications ++
            [{ tenant_id := op.tenant_id, user_id := none, notif_type := "READY",
               message := "Operation " ++ next_op.operation_id ++ " for Job " ++ op.job_id
                 ++ " is READY to start.",
               entity_reference := next_op.job_operation_id, is_read := false,
               created_at := now }]))
    ∧ (¬ (strOptTruthy next_op.machine_id = true ∧ strOptTruthy next_op.shift_id = true
        ∧ next_op.planned_start_date.isSome = true
        ∧ next_op.planned_end_date.isSome = true) →
      ((update_job_operation_status s id "COMPLETED" tenant user qc qrj rf rn ov
          now).2.isOk = true
      ∧ lookupJobOp (update_job_operation_status s id "COMPLETED" tenant user qc qrj rf rn
            ov now).1.job_operations next_op.job_operation_id
          = some { next_op with status := OP_STATUS_NOT_STARTED, needs_planning := true }
      ∧ (update_job_operation_status s id "COMPLETED" tenant user qc qrj rf rn ov
            now).1.notifications = s.notifications)) := by
  have hv : is_valid_status_transition op.status "COMPLETED" = true := by
    rw [hst]; decide
  have hres := update_completed_shape s id tenant user qc qrj rf rn ov now op qr hl ht hv hcv
  have hid : op.job_operation_id = id := by simpa using List.find?_some hl
  obtain ⟨hAkey, hAjob, hAten, hAseq, hAst⟩ :=
    applyTimestamps_fields op op.status "COMPLETED" user qc qr now
  have h3key : ({ applyTimestamps op op.status "COMPLETED" user qc qr now with
      status := "COMPLETED" } : JobOperation).job_operation_id = id := hAkey.trans hid
  have h3job : ({ applyTimestamps op op.status "COMPLETED" user qc qr now with
      status := "COMPLETED" } : JobOperation).job_id = op.job_id := hAjob
  have h3ten : ({ applyTimestamps op op.status "COMPLETED" user qc qr now with
      status := "COMPLETED" } : JobOperation).tenant_id = op.tenant_id := hAten
  have h3seq : ({ applyTimestamps op op.status "COMPLETED" user qc qr now with
      status := "COMPLETED" } : JobOperation).sequence_number = op.sequence_number := hAseq
  have hne : next_op.job_operation_id ≠ id := by
    intro hc
    have heq := hkeys next_op (List.mem_of_find?_eq_some hnext) hc
    have hp := List.find?_some hnext
    rw [heq] at hp
    simp only [Bool.and_eq_true, beq_iff_eq] at hp
    omega
  have hpfalse : ∀ x : JobOperation, x.job_id = op.job_id →
      x.sequence_number = op.sequence_number →
      (x.job_id == ({ applyTimestamps op op.status "COMPLETED" user qc qr now with
          status := "COMPLETED" } : JobOperation).job_id
        && x.sequence_number == ({ applyTimestamps op op.status "COMPLETED" user qc qr
            now with status := "COMPLETED" } : JobOperation).sequence_number + 1) = false := by
    intro x hxj hxs
    rw [h3job, h3seq]
    have : (x.sequence_number == op.sequence_number + 1) = false := by
      simp only [beq_eq_false_iff_ne, ne_eq]
      omega
    simp [this]
  have hfind1 : (updateOp s.job_operations id (fun _ =>
      { applyTimestamps op op.status "COMPLETED" user qc qr now with
        status := "COMPLETED" })).find? (fun o =>
        o.job_id == ({ applyTimestamps op op.status "COMPLETED" user qc qr now with
            status := "COMPLETED" } : JobOperation).job_id
        && o.sequence_number == ({ applyTimestamps op op.status "COMPLETED" user qc qr
            now with status := "COMPLETED" } : JobOperation).sequence_number + 1)
      = some next_op := by
    rw [find?_updateOp_stable s.job_operations id op _ _ hkeys
      (hpfalse op rfl rfl) (hpfalse _ h3job h3seq)]
    have hpeq : (fun (o : JobOperation) =>
        o.job_id == ({ applyTimestamps op op.status "COMPLETED" user qc qr now with
            status := "COMPLETED" } : JobOperation).job_id
        && o.sequence_number == ({ applyTimestamps op op.status "COMPLETED" user qc qr
            now with status := "COMPLETED" } : JobOperation).sequence_number + 1)
        = (fun (o : JobOperation) =>
          o.job_id == op.job_id && o.sequence_number == op.sequence_number + 1) := by
      funext o
      rw [h3job, h3seq]
    rw [hpeq]
    exact hnext
  have hadv : autoAdvance
      { s with job_operations := (updateOp s.job_operations id (fun _ =>
          { applyTimestamps op op.status "COMPLETED" user qc qr now with
            status := "COMPLETED" })) }
      ({ applyTimestamps op op.status "COMPLETED" user qc qr now with
        status := "COMPLETED" }) now
      = (if strOptTruthy next_op.machine_id ∧ strOptTruthy next_op.shift_id
            ∧ next_op.planned_start_date.isSome ∧ next_op.planned_end_date.isSome then
          create_notification
            { s with job_operations := (updateOp (updateOp s.job_operations id (fun _ =>
                { applyTimestamps op op.status "COMPLETED" user qc qr now with
                  status := "COMPLETED" })) next_op.job_operation_id
                (fun o => { o with status := OP_STATUS_READY })) }
            ({ applyTimestamps op op.status "COMPLETED" user qc qr now with
              status := "COMPLETED" } : JobOperation).tenant_id none "READY"
            ("Operation " ++ next_op.operation_id ++ " for Job "
              ++ ({ applyTimestamps op op.status "COMPLETED" user qc qr now with
                status := "COMPLETED" } : JobOperation).job_id ++ " is READY to start.")
            next_op.job_operation_id now
        else
          { s with job_operations := (updateOp (updateOp s.job_operations id (fun _ =>
              { applyTimestamps op op.status "COMPLETED" user qc qr now with
                status := "COMPLETED" })) next_op.job_operation_id
              (fun o =>
                { o with status := OP_STATUS_NOT_STARTED, needs_planning := true })) })
      := by
    unfold autoAdvance
    dsimp only
    rw [hfind1]
  have hlook1 : lookupJobOp (updateOp s.job_operations id (fun _ =>
      { applyTimestamps op op.status "COMPLETED" user qc qr now with
        status := "COMPLETED" })) next_op.job_operation_id = some next_op := by
    have := find?_updateOp_stable s.job_operations id op
      ({ applyTimestamps op op.status "COMPLETED" user qc qr now with
        status := "COMPLETED" })
      (fun o => o.job_operation_id == next_op.job_operation_id) hkeys
      (by rw [beq_eq_false_iff_ne, hid]; exact fun hc => hne hc.symm)
      (by rw [beq_eq_false_iff_ne, h3key]; exact fun hc => hne hc.symm)
    exact this.trans hkn
  constructor
  · intro hplanned
    obtain ⟨hm1, hm2, hm3, hm4⟩ := hplanned
    refine ⟨?_, ?_, ?_⟩
    · rw [hres]
      rfl
    · rw [hres]
      show lookupJobOp (log_audit_event _ _ _ _ _ _ _).job_operations _ = _
      rw [show ∀ (Y : State) a b c d e (f : Int),
          (log_audit_event Y a b c d e f).job_operations = Y.job_operations
          from fun _ _ _ _ _ _ _ => rfl]
      rw [rollupJobStatus_job_operations]
      rw [hadv, if_pos ⟨hm1, hm2, hm3, hm4⟩]
      show lookupJobOp (updateOp _ _ _) _ = _
      rw [lookupJobOp_updateOp _ _ (fun o => { o with status := OP_STATUS_READY })
        (fun o => rfl) _]
      rw [hlook1]
      simp only [Option.map_some']
      rw [if_pos (by simp)]
    · rw [hres]
      show (log_audit_event _ _ _ _ _ _ _).notifications = _
      rw [show ∀ (Y : State) a b c d e (f : Int),
          (log_audit_event Y a b c d e f).notifications = Y.notifications
          from fun _ _ _ _ _ _ _ => rfl]
      rw [rollupJobStatus_notifications]
      rw [hadv, if_pos ⟨hm1, hm2, hm3, hm4⟩]
      show (create_notification _ _ _ _ _ _ _).notifications = _
      rw [show ∀ (Y : State) t u ty m ent (n : Int),
          (create_notification Y t u ty m ent n).notifications
            = Y.notifications ++ [({ tenant_id := t, user_id := u, notif_type := ty, message := m, entity_reference := ent, is_read := false, created_at := n } : Notification)]
          from fun _ _ _ _ _ _ _ => rfl]
      rw [h3ten, h3job]
  · intro hnp
    refine ⟨?_, ?_, ?_⟩
    · rw [hres]
      rfl
    · rw [hres]
      show lookupJobOp (log_audit_event _ _ _ _ _ _ _).job_operations _ = _
      rw [show ∀ (Y : State) a b c d e (f : Int),
          (log_audit_event Y a b c d e f).job_operations = Y.job_operations
          from fun _ _ _ _ _ _ _ => rfl]
      rw [rollupJobStatus_job_operations]
      rw [hadv, if_neg hnp]
      show lookupJobOp (updateOp _ _ _) _ = _
      rw [lookupJobOp_updateOp _ _
        (fun o => { o with status := OP_STATUS_NOT_STARTED, needs_planning := true })
        (fun o => rfl) _]
      rw [hlook1]
      simp only [Option.map_some']
      rw [if_pos (by simp)]
    · rw [hres]
      show (log_audit_event _ _ _ _ _ _ _).notifications = _
      rw [show ∀ (Y : State) a b c d e (f : Int),
          (log_audit_event Y a b c d e f).notifications = Y.notifications
          from fun _ _ _ _ _ _ _ => rfl]
      rw [rollupJobStatus_notifications]
      rw [hadv, if_neg hnp]

/-- C6, witness: completing `J-a` of `seqFixture` (10 of 10 units) promotes
the fully planned `J-b` to READY and appends exactly one broadcast READY
notification. -/
theorem C6_witness :
    (update_job_operation_status seqFixture "J-a" "COMPLETED" "t1" "u" (some 10) none
        false none false 9).2.isOk = true
    ∧ lookupJobOp (update_job_operation_status seqFixture "J-a" "COMPLETED" "t1" "u"
          (some 10) none false none false 9).1.job_operations "J-b"
        = some { job_operation_id := "J-b", job_id := "J", tenant_id := "t1",
                 operation_id := "b", sequence_number := 2, status := "READY",
                 machine_id := some "m1", shift_id := some "sh1",
                 planned_start_date := some 3, planned_end_date := some 4 }
    ∧ (update_job_operation_status seqFixture "J-a" "COMPLETED" "t1" "u" (some 10) none
          false none false 9).1.notifications
        = seqFixture.notifications ++
          [{ tenant_id := "t1", user_id := none, notif_type := "READY",
             message := "Operation b for Job J is READY to start.",
             entity_reference := "J-b", is_read := false, created_at := 9 }] := by
  have h := (C6_theorem seqFixture "J-a" "t1" "u" (some 10) none false none false 9
      _ _ 0 rfl rfl rfl rfl (by decide) rfl rfl).1 (by decide)
  exact ⟨h.1, h.2.1, h.2.2⟩

end JobWorkPlanner
